import Mathlib

/-!
Shallow embedding of `src/stance/run_grid_search.py` (stance-detection
hyperparameter grid/random search driving CSV result logging).

Modelling conventions:
* Python dicts of hyperparameters become ordered association lists
  (`ParamSet`); dict insertion order is preserved by list order.
* Python floats are modelled as exact rationals (every IEEE double is a
  rational number); the only non-rational value produced by the script,
  `10 ** u` for a sampled exponent `u` (the learning rate), is kept
  symbolically as `PValue.pow10 u` and interpreted as the real number
  `10 ^ u` in theorem statements.  Likewise `np.std` produces the square
  root of the (rational) population variance, kept as `PValue.sqrtv v`
  and interpreted as `Real.sqrt v`.
* CSV column keys: the script uses the flat strings `'fmacro_1'`, ...,
  `'fmacro_avg'`, `'fmacro_std'` alongside hyperparameter names.  These
  literals are pairwise distinct and distinct from every hyperparameter
  name the two generators can produce, so they are modelled as a disjoint
  sum (`Key`).
* External collaborators (`load_data`, `run_fixed_fast`, `run_xval`) are
  out of scope per the specification and are passed in as oracles; data
  returned by `load_data` is identified by the file path and profile flag
  it was loaded with (`Data`).  Fallible oracles return `Except`.
* `csv.DictWriter` (stdlib) is modelled from its documented semantics:
  `writerow` raises `ValueError` when the row mapping holds a key outside
  `fieldnames` (default `extrasaction='raise'`), and fills columns missing
  from the row with the default `restval = None` (written as the empty
  string).  `np.average` / `np.std` (with default arguments) are modelled
  from the numpy documentation: arithmetic mean, and square root of the
  mean of squared deviations (population standard deviation, `ddof = 0`).
* `sklearn.model_selection.ParameterGrid` is modelled from its documented
  and stable behaviour: iteration sorts the parameter names and yields the
  cartesian product of the candidate lists (first name varying slowest).
* Logging calls, `os.path.join` path prefixing and the physical file
  handles are not modelled; the CSV output is modelled as the list of
  emitted rows inside an event trace.
-/

/-- A hyperparameter / CSV cell value. -/
inductive PValue where
  | int : Int → PValue
  | rat : ℚ → PValue
  | bool : Bool → PValue
  /-- the Python float `10 ** u` (learning-rate sample) -/
  | pow10 : ℚ → PValue
  /-- the Python float `sqrt v` (standard deviation of a score list) -/
  | sqrtv : ℚ → PValue
  deriving DecidableEq

/-- One parameter configuration: a Python dict in insertion order. -/
abbrev ParamSet := List (String × PValue)

/-- Python truthiness of a value (`if profile:`). -/
def PValue.truthy : PValue → Bool
  | .int n => n != 0
  | .rat q => q != 0
  | .bool b => b
  | .pow10 _ => true
  | .sqrtv q => q != 0

/-- Truthiness of `dict.pop('profile', None)`'s result (`None` is falsy). -/
def truthyOpt : Option PValue → Bool
  | none => false
  | some v => v.truthy

/-- `d[k]` lookup on an association list (first matching key wins). -/
def lookupStr (k : String) : ParamSet → Option PValue
  | [] => none
  | kv :: rest => if kv.1 = k then some kv.2 else lookupStr k rest

/-- The dict left after `d.pop(k, None)`: the entry for `k` removed. -/
def popKeyRest (k : String) : ParamSet → ParamSet
  | [] => []
  | kv :: rest => if kv.1 = k then rest else kv :: popKeyRest k rest

/-- Model names of the CrossNet family (`run_grid_search.py`, line 39). -/
def crossnetNames : List String := ["crossnet", "cn", "CrossNet", "crossNet"]

/-- Model names of the MemNet family (line 43). -/
def memnetNames : List String := ["memnet", "MemNet", "mn", "memNet", "AttNet", "attnet"]

/-- Model names of the Transformer family (line 46). -/
def tfNames : List String := ["tf", "transformer", "Transformer"]

/-- The generic candidate lists of `get_param_grid` (lines 25-38). -/
def genericParamCombs : List (String × List PValue) :=
  [("max_vocabsize", [.int 100000, .int 200000, .int 300000]),
   ("max_seqlen", [.int 20, .int 40]),
   ("max_tgtlen", [.int 1]),
   ("profile", [.bool false, .bool true]),
   ("max_prflen", [.int 20, .int 40]),
   ("dropout", [.rat (1/10), .rat (3/10), .rat (6/10), .rat (9/10)]),
   ("lr", [.rat (1/10), .rat (1/100), .rat (1/1000), .rat (1/10000)]),
   ("validation_split", [.rat (2/10)]),
   ("epochs", [.int 200]),
   ("batch_size", [.int 32, .int 64, .int 128, .int 256]),
   ("patience", [.int 30])]

/-- The full candidate mapping built by `get_param_grid` before it is fed
to `ParameterGrid`: generic lists extended per model family; unknown
models raise `NotImplementedError` (lines 39-52). -/
def paramCombs (modelname : String) : Except Unit (List (String × List PValue)) :=
  if modelname ∈ crossnetNames then
    .ok (genericParamCombs ++
      [("dim_lstm", [.int 100, .int 200, .int 300]),
       ("num_reason", [.int 1, .int 2, .int 3]),
       ("dim_dense", [.int 100, .int 200, .int 300])])
  else if modelname ∈ memnetNames then
    .ok (genericParamCombs ++
      [("dim_lstm", [.int 100, .int 200, .int 300]),
       ("num_layers", [.int 1, .int 2, .int 3, .int 4])])
  else if modelname ∈ tfNames then
    .ok (genericParamCombs ++
      [("target", [.bool false, .bool true]),
       ("num_head", [.int 2, .int 4, .int 8]),
       ("num_layers", [.int 1, .int 2, .int 3, .int 4])])
  else .error ()

/-- Cartesian product of candidate lists, first key varying slowest
(`itertools.product` order inside `ParameterGrid`). -/
def cartProd : List (String × List PValue) → List ParamSet
  | [] => [[]]
  | kvs :: rest => kvs.2.flatMap (fun v => (cartProd rest).map (fun ps => (kvs.1, v) :: ps))

/-- `sklearn.model_selection.ParameterGrid` iteration: entries sorted by
parameter name, then the cartesian product of the value lists. -/
def parameterGrid (combs : List (String × List PValue)) : List ParamSet :=
  cartProd (combs.mergeSort (fun a b => decide (a.1 ≤ b.1)))

/-- `get_param_grid` (lines 19-54): `list(ParameterGrid(param_combs))`. -/
def get_param_grid (modelname : String) : Except Unit (List ParamSet) :=
  match paramCombs modelname with
  | .error e => .error e
  | .ok combs => .ok (parameterGrid combs)

/-- `filter_useless_combs` (lines 57-59): always returns `False`. -/
def filter_useless_combs (_params : ParamSet) : Bool := false

/-- The outcomes of the individual random primitives drawn during one call
of `randsample_params`: one field per `choice`/`uniform`/`randint` call
site (numpy draws; `randint`/`uniform` outcomes are raw, the arithmetic
applied to them lives in `randsample_params`). -/
structure Outcomes where
  o_max_seqlen : Int
  o_profile : Bool
  o_prf_cat : Bool
  o_max_prflen : Int
  o_dropout : ℚ
  o_lr_exp : ℚ
  o_batch_exp : Int
  o_dim_lstm_f : Int
  o_dim_dense_f : Int
  o_num_layers : Int
  o_weight_tying : Bool
  o_num_head_exp : Int

/-- Contracts of the numpy primitives at each call site of
`randsample_params`: `choice(l)` returns an element of `l`,
`uniform(lo, hi)` a value in `[lo, hi)`, `randint(lo, hi)` an integer in
`[lo, hi)`. -/
def Outcomes.Valid (o : Outcomes) : Prop :=
  (o.o_max_seqlen = 20 ∨ o.o_max_seqlen = 40) ∧
  (o.o_max_prflen = 20 ∨ o.o_max_prflen = 40) ∧
  (1/10 ≤ o.o_dropout ∧ o.o_dropout < 1/2) ∧
  (-5 ≤ o.o_lr_exp ∧ o.o_lr_exp < -1) ∧
  (5 ≤ o.o_batch_exp ∧ o.o_batch_exp < 9) ∧
  (1 ≤ o.o_dim_lstm_f ∧ o.o_dim_lstm_f < 6) ∧
  (1 ≤ o.o_dim_dense_f ∧ o.o_dim_dense_f < 6) ∧
  (1 ≤ o.o_num_layers ∧ o.o_num_layers < 5) ∧
  (1 ≤ o.o_num_head_exp ∧ o.o_num_head_exp < 4)

/-- The initial `param_combs` dict built by `randsample_params`
(lines 68-83) before the family-specific extension. -/
def randsample_base (o : Outcomes) : ParamSet :=
  [("max_vocabsize", .int 10000),
   ("max_seqlen", .int o.o_max_seqlen),
   ("max_tgtlen", .int 1),
   ("profile", .bool o.o_profile),
   ("prf_cat", .bool o.o_prf_cat),
   ("max_prflen", .int o.o_max_prflen),
   ("dropout", .rat o.o_dropout),
   ("lr", .pow10 o.o_lr_exp),
   ("validation_split", .rat (2/10)),
   ("epochs", .int 200),
   ("batch_size", .int (2 ^ o.o_batch_exp.toNat)),
   ("patience", .int 30)]

/-- `randsample_params` (lines 62-105), with the primitive draws of this
call supplied by `o`; unknown models raise `NotImplementedError`. -/
def randsample_params (o : Outcomes) (modelname : String) : Except Unit ParamSet :=
  if modelname ∈ crossnetNames then
    .ok (randsample_base o ++
      [("dim_lstm", .int (100 * o.o_dim_lstm_f)),
       ("num_reason", .int 1),
       ("dim_dense", .int (100 * o.o_dim_dense_f))])
  else if modelname ∈ memnetNames then
    .ok (randsample_base o ++
      [("dim_lstm", .int (100 * o.o_dim_lstm_f)),
       ("num_layers", .int o.o_num_layers),
       ("weight_tying", .bool o.o_weight_tying)])
  else if modelname ∈ tfNames then
    .ok (randsample_base o ++
      [("target", .int 1),
       ("parallel", .int 1),
       ("num_head", .int (2 ^ o.o_num_head_exp.toNat)),
       ("num_layers", .int o.o_num_layers)])
  else .error ()

/-- `[randsample_params(model) for _ in range(rand)]`: the comprehension
aborts at the first raised exception. -/
def exceptMapM {ε α β : Type} (f : α → Except ε β) : List α → Except ε (List β)
  | [] => .ok []
  | a :: as =>
    match f a with
    | .error e => .error e
    | .ok b =>
      match exceptMapM f as with
      | .error e => .error e
      | .ok bs => .ok (b :: bs)

/-- A CSV column key.  The script uses flat strings; `'fmacro_{i}'`,
`'fmacro_avg'`, `'fmacro_std'` are distinct from each other and from all
parameter names, hence the disjoint sum. -/
inductive Key where
  | p : String → Key
  | fmacro : ℕ → Key
  | fmacro_avg : Key
  | fmacro_std : Key
  deriving DecidableEq

/-- `d[k]` lookup on a CSV row mapping. -/
def lookupKey (k : Key) : List (Key × PValue) → Option PValue
  | [] => none
  | kv :: rest => if kv.1 = k then some kv.2 else lookupKey k rest

/-- The CSV header built in `GridSearch.__init__` (lines 174-176):
the keys of the first `ParameterSet`, then `fmacro_1 .. fmacro_repeat`,
then `fmacro_avg`, `fmacro_std`. -/
def mkHeader (nrepeat : ℕ) (p0 : ParamSet) : List Key :=
  (p0.map Prod.fst).map Key.p
    ++ (List.range nrepeat).map (fun i => Key.fmacro (i + 1))
    ++ [Key.fmacro_avg, Key.fmacro_std]

/-- `csv.DictWriter` row serialization (`_dict_to_list`): with the default
`extrasaction='raise'`, a row key outside `fieldnames` raises
`ValueError`; otherwise, one cell per field, `none` (= `restval`, written
as the empty string) for fields the row does not bind. -/
def dict_to_list (fieldnames : List Key) (row : List (Key × PValue)) :
    Except Unit (List (Option PValue)) :=
  if row.all (fun kv => decide (kv.1 ∈ fieldnames)) then
    .ok (fieldnames.map (fun f => lookupKey f row))
  else .error ()

/-- `np.average` with default weights: the arithmetic mean. -/
def np_average (l : List ℚ) : ℚ := l.sum / l.length

/-- `np.std` with default `ddof = 0` computes
`sqrt(mean(|x - x.mean()|**2))`; this is the radicand (the population
variance), kept rational. -/
def np_var (l : List ℚ) : ℚ := np_average (l.map (fun x => (x - np_average l) ^ 2))

/-- `GridSearch._result2csvrow` (lines 263-274): the row mapping, in dict
insertion order `fmacro_1 .. fmacro_m`, `fmacro_avg`, `fmacro_std`, then
the (already profile-popped) parameters. -/
def result2csvrow (params : ParamSet) (fmacro_list : List ℚ) : List (Key × PValue) :=
  fmacro_list.enum.map (fun iv => (Key.fmacro (iv.1 + 1), PValue.rat iv.2))
    ++ [(Key.fmacro_avg, .rat (np_average fmacro_list)),
        (Key.fmacro_std, .sqrtv (np_var fmacro_list))]
    ++ params.map (fun kv => (Key.p kv.1, kv.2))

/-- A dataset as produced by `load_data(fp, target='all', profile=…)`,
identified by its loading arguments. -/
structure Data where
  fp : String
  profile : Bool
  deriving DecidableEq

/-- Observable actions of a sweep: `load_data` calls, training/evaluation
oracle calls (with their results), and CSV data rows written. -/
inductive Event (ε : Type) where
  | load : String → Bool → Event ε
  | runF : Data → Data → Option PValue → ParamSet → ℕ → Except ε ℚ → Event ε
  | runX : Data → Option PValue → ParamSet → Except ε (List ℚ) → Event ε
  | row : List (Option PValue) → Event ε

/-- How a sweep terminates abnormally: a propagated exception from the
training/evaluation oracle, or a `ValueError` from `DictWriter.writerow`. -/
inductive SweepErr (ε : Type) where
  | runErr : ε → SweepErr ε
  | writeErr : SweepErr ε
  deriving DecidableEq

/-- The inner repetition loop of `GridSearch.fixed` (lines 209-224): one
`run_fixed_fast` call per iteration index, stopping at the first raised
exception. -/
def runRepeats {ε : Type} (runFF : Data → Data → Option PValue → ParamSet → ℕ → Except ε ℚ)
    (train test : Data) (pv : Option PValue) (ps : ParamSet) :
    List ℕ → List (Event ε) × Except ε (List ℚ)
  | [] => ([], .ok [])
  | i :: is =>
    match runFF train test pv ps i with
    | .error e => ([.runF train test pv ps i (.error e)], .error e)
    | .ok s =>
      let rec_ := runRepeats runFF train test pv ps is
      (.runF train test pv ps i (.ok s) :: rec_.1,
       match rec_.2 with
       | .error e => .error e
       | .ok ss => .ok (s :: ss))

/-- The sweep loop of `GridSearch.fixed` (lines 202-225): skip filtered
sets, pop the profile flag, run `repeat` repetitions on the data variant
selected by the flag, then write one row; exceptions abort the loop. -/
def fixedSweep {ε : Type} (filt : ParamSet → Bool) (nrepeat : ℕ) (header : List Key)
    (runFF : Data → Data → Option PValue → ParamSet → ℕ → Except ε ℚ)
    (tr trP te teP : Data) :
    List ParamSet → List (Event ε) × Option (SweepErr ε)
  | [] => ([], none)
  | ps :: rest =>
    if filt ps then fixedSweep filt nrepeat header runFF tr trP te teP rest
    else
      match runRepeats runFF
          (if truthyOpt (lookupStr "profile" ps) then trP else tr)
          (if truthyOpt (lookupStr "profile" ps) then teP else te)
          (lookupStr "profile" ps) (popKeyRest "profile" ps) (List.range nrepeat) with
      | (evs, .error e) => (evs, some (.runErr e))
      | (evs, .ok scores) =>
        match dict_to_list header (result2csvrow (popKeyRest "profile" ps) scores) with
        | .error _ => (evs, some .writeErr)
        | .ok cells =>
          (evs ++ Event.row cells :: (fixedSweep filt nrepeat header runFF tr trP te teP rest).1,
           (fixedSweep filt nrepeat header runFF tr trP te teP rest).2)

/-- The sweep loop of `GridSearch.xval` (lines 247-260): like `fixedSweep`
but one `run_xval` call returning the whole score list. -/
def xvalSweep {ε : Type} (filt : ParamSet → Bool) (header : List Key)
    (runXv : Data → Option PValue → ParamSet → Except ε (List ℚ)) (d dP : Data) :
    List ParamSet → List (Event ε) × Option (SweepErr ε)
  | [] => ([], none)
  | ps :: rest =>
    if filt ps then xvalSweep filt header runXv d dP rest
    else
      match runXv (if truthyOpt (lookupStr "profile" ps) then dP else d)
          (lookupStr "profile" ps) (popKeyRest "profile" ps) with
      | .error e =>
        ([.runX (if truthyOpt (lookupStr "profile" ps) then dP else d)
            (lookupStr "profile" ps) (popKeyRest "profile" ps) (.error e)],
         some (.runErr e))
      | .ok fmacro_list =>
        match dict_to_list header (result2csvrow (popKeyRest "profile" ps) fmacro_list) with
        | .error _ =>
          ([.runX (if truthyOpt (lookupStr "profile" ps) then dP else d)
              (lookupStr "profile" ps) (popKeyRest "profile" ps) (.ok fmacro_list)],
           some .writeErr)
        | .ok cells =>
          (.runX (if truthyOpt (lookupStr "profile" ps) then dP else d)
              (lookupStr "profile" ps) (popKeyRest "profile" ps) (.ok fmacro_list)
            :: Event.row cells :: (xvalSweep filt header runXv d dP rest).1,
           (xvalSweep filt header runXv d dP rest).2)

/-- The state a successfully constructed `GridSearch` object holds. -/
structure GridSearchState where
  model : String
  nrepeat : ℕ
  cv : ℕ
  param_grid : List ParamSet
  header : List Key
  deriving DecidableEq

/-- The errors `GridSearch.__init__` can raise: the explicit `ValueError`
for `'svm'`, `NotImplementedError` from the generators, `IndexError` from
`self.param_grid[0]` on an empty space. -/
inductive InitError where
  | svm : InitError
  | notImplemented : InitError
  | indexError : InitError
  deriving DecidableEq

/-- Python truthiness of the `rand` argument (`if self.rand:`). -/
def randTruthy : Option ℕ → Bool
  | none => false
  | some n => n != 0

namespace GridSearch

/-- `GridSearch.__init__` (lines 115-178): reject `'svm'` first, then
build the parameter space (random when `rand` is truthy, grid otherwise),
then build the CSV header from the first `ParameterSet` and open the
output file.  `samples i` supplies the random draws of the `i`-th
`randsample_params` call. -/
def init (model : String) (rand : Option ℕ) (samples : ℕ → Outcomes)
    (nrepeat cv : ℕ) : Except InitError GridSearchState :=
  if model = "svm" then .error .svm
  else
    match
      (if randTruthy rand then
        exceptMapM (fun i => randsample_params (samples i) model) (List.range (rand.getD 0))
      else get_param_grid model) with
    | .error _ => .error .notImplemented
    | .ok grid =>
      match grid with
      | [] => .error .indexError
      | p0 :: rest =>
        .ok { model := model, nrepeat := nrepeat, cv := cv,
              param_grid := p0 :: rest, header := mkHeader nrepeat p0 }

/-- `GridSearch.fixed` (lines 180-226) with the skip predicate abstracted
(the script hard-codes `filter_useless_combs`): load the four data
variants once, then sweep. -/
def fixedWith {ε : Type} (filt : ParamSet → Bool) (st : GridSearchState)
    (runFF : Data → Data → Option PValue → ParamSet → ℕ → Except ε ℚ)
    (trainfp testfp : String) : List (Event ε) × Option (SweepErr ε) :=
  let out := fixedSweep filt st.nrepeat st.header runFF
      ⟨trainfp, false⟩ ⟨trainfp, true⟩ ⟨testfp, false⟩ ⟨testfp, true⟩ st.param_grid
  (.load trainfp false :: .load trainfp true :: .load testfp false :: .load testfp true
     :: out.1, out.2)

/-- `GridSearch.fixed` as written: skip predicate `filter_useless_combs`. -/
def fixed {ε : Type} (st : GridSearchState)
    (runFF : Data → Data → Option PValue → ParamSet → ℕ → Except ε ℚ)
    (trainfp testfp : String) : List (Event ε) × Option (SweepErr ε) :=
  fixedWith filter_useless_combs st runFF trainfp testfp

/-- `GridSearch.xval` (lines 228-261) with the skip predicate abstracted:
load the two data variants once, then sweep. -/
def xvalWith {ε : Type} (filt : ParamSet → Bool) (st : GridSearchState)
    (runXv : Data → Option PValue → ParamSet → Except ε (List ℚ))
    (datafp : String) : List (Event ε) × Option (SweepErr ε) :=
  let out := xvalSweep filt st.header runXv ⟨datafp, false⟩ ⟨datafp, true⟩ st.param_grid
  (.load datafp false :: .load datafp true :: out.1, out.2)

/-- `GridSearch.xval` as written: skip predicate `filter_useless_combs`. -/
def xval {ε : Type} (st : GridSearchState)
    (runXv : Data → Option PValue → ParamSet → Except ε (List ℚ))
    (datafp : String) : List (Event ε) × Option (SweepErr ε) :=
  xvalWith filter_useless_combs st runXv datafp

end GridSearch

/-- Is an event a written CSV data row? -/
def Event.isRow {ε : Type} : Event ε → Bool
  | .row _ => true
  | _ => false

/-- Is an event a `load_data` call? -/
def Event.isLoad {ε : Type} : Event ε → Bool
  | .load _ _ => true
  | _ => false

/-- A concrete draw record used by the witness instances: every primitive
outcome respects its contract. -/
def exampleOutcomes : Outcomes :=
  { o_max_seqlen := 20, o_profile := false, o_prf_cat := false, o_max_prflen := 20,
    o_dropout := 1/5, o_lr_exp := -2, o_batch_exp := 5, o_dim_lstm_f := 1,
    o_dim_dense_f := 1, o_num_layers := 1, o_weight_tying := false, o_num_head_exp := 1 }

/-! ## Association-list lemmas -/

theorem lookupStr_eq_none {k : String} {ps : ParamSet} (h : k ∉ ps.map Prod.fst) :
    lookupStr k ps = none := by
  induction ps with
  | nil => rfl
  | cons kv rest ih =>
    simp only [List.map_cons, List.mem_cons, not_or] at h
    rw [lookupStr, if_neg (fun he : kv.1 = k => h.1 he.symm)]
    exact ih h.2

theorem lookupKey_eq_none {k : Key} {row : List (Key × PValue)} (h : k ∉ row.map Prod.fst) :
    lookupKey k row = none := by
  induction row with
  | nil => rfl
  | cons kv rest ih =>
    simp only [List.map_cons, List.mem_cons, not_or] at h
    rw [lookupKey, if_neg (fun he : kv.1 = k => h.1 he.symm)]
    exact ih h.2

theorem lookupStr_popKeyRest {k : String} {ps : ParamSet}
    (h : (ps.map Prod.fst).Nodup) : lookupStr k (popKeyRest k ps) = none := by
  induction ps with
  | nil => rfl
  | cons kv rest ih =>
    simp only [List.map_cons, List.nodup_cons] at h
    by_cases hk : kv.1 = k
    · simp only [popKeyRest, if_pos hk]
      exact lookupStr_eq_none (hk ▸ h.1)
    · simp only [popKeyRest, if_neg hk, lookupStr, if_neg hk]
      exact ih h.2

theorem popKeyRest_keys_subset {k : String} {ps : ParamSet} :
    ∀ k' ∈ (popKeyRest k ps).map Prod.fst, k' ∈ ps.map Prod.fst := by
  induction ps with
  | nil => simp [popKeyRest]
  | cons kv rest ih =>
    intro k' hk'
    by_cases hk : kv.1 = k
    · simp only [popKeyRest, if_pos hk] at hk'
      simp [hk']
    · simp only [popKeyRest, if_neg hk, List.map_cons, List.mem_cons] at hk'
      rcases hk' with h | h
      · simp [h]
      · simp [ih k' h]

theorem lookupKey_append_right {k : Key} {l1 l2 : List (Key × PValue)}
    (h : ∀ kv ∈ l1, kv.1 ≠ k) : lookupKey k (l1 ++ l2) = lookupKey k l2 := by
  induction l1 with
  | nil => rfl
  | cons kv rest ih =>
    simp only [List.cons_append, lookupKey, if_neg (h kv (by simp))]
    exact ih fun kv' h' => h kv' (by simp [h'])

theorem lookupKey_map_p {s : String} {ps : ParamSet} :
    lookupKey (Key.p s) (ps.map (fun kv => (Key.p kv.1, kv.2))) = lookupStr s ps := by
  induction ps with
  | nil => rfl
  | cons kv rest ih =>
    simp only [List.map_cons, lookupKey, lookupStr]
    by_cases hk : kv.1 = s
    · simp [hk]
    · simp only [if_neg hk, ih, if_neg (fun he : Key.p kv.1 = Key.p s => hk (by injection he))]

/-! ## Cartesian-product lemmas -/

theorem length_cartProd (combs : List (String × List PValue)) :
    (cartProd combs).length = (combs.map (fun kv => kv.2.length)).prod := by
  induction combs with
  | nil => simp [cartProd]
  | cons kv rest ih =>
    simp only [cartProd, List.length_flatMap, List.map_map, Function.comp_def,
      List.length_map, ih, List.map_cons, List.prod_cons]
    rw [List.map_const', List.sum_replicate, smul_eq_mul]

theorem keys_of_mem_cartProd {combs : List (String × List PValue)} {p : ParamSet}
    (h : p ∈ cartProd combs) : p.map Prod.fst = combs.map Prod.fst := by
  induction combs generalizing p with
  | nil => simp only [cartProd, List.mem_singleton] at h; simp [h]
  | cons kv rest ih =>
    simp only [cartProd, List.mem_flatMap, List.mem_map] at h
    obtain ⟨v, _, q, hq, rfl⟩ := h
    simp [ih hq]

/-! ## `dict_to_list` and `result2csvrow` lemmas -/

theorem dict_to_list_ok_iff {fieldnames : List Key} {row : List (Key × PValue)}
    {cells : List (Option PValue)} (h : dict_to_list fieldnames row = .ok cells) :
    cells = fieldnames.map (fun f => lookupKey f row) := by
  unfold dict_to_list at h
  split at h
  · injection h with h; exact h.symm
  · cases h

theorem result2csvrow_keys (params : ParamSet) (fl : List ℚ) :
    (result2csvrow params fl).map Prod.fst =
      (List.range fl.length).map (fun i => Key.fmacro (i + 1))
        ++ [Key.fmacro_avg, Key.fmacro_std]
        ++ params.map (fun kv => Key.p kv.1) := by
  simp only [result2csvrow, List.map_append, List.map_map, Function.comp_def]
  rw [show (fun iv : ℕ × ℚ => Key.fmacro (iv.1 + 1)) = (fun i => Key.fmacro (i + 1)) ∘ Prod.fst from rfl,
    ← List.map_map, List.enum_map_fst]
  rfl

/-! ## Repetition-loop lemmas -/

theorem runRepeats_ok {ε : Type} (runFF : Data → Data → Option PValue → ParamSet → ℕ → Except ε ℚ)
    (train test : Data) (pv : Option PValue) (ps : ParamSet) (s : ℕ → ℚ) :
    ∀ is : List ℕ, (∀ i ∈ is, runFF train test pv ps i = .ok (s i)) →
      runRepeats runFF train test pv ps is =
        (is.map (fun i => Event.runF train test pv ps i (.ok (s i))), .ok (is.map s)) := by
  intro is
  induction is with
  | nil => intro _; rfl
  | cons i is ih =>
    intro h
    rw [runRepeats, h i (by simp)]
    simp only [ih fun j hj => h j (by simp [hj]), List.map_cons]

theorem runRepeats_fail {ε : Type} (runFF : Data → Data → Option PValue → ParamSet → ℕ → Except ε ℚ)
    (train test : Data) (pv : Option PValue) (ps : ParamSet) (s : ℕ → ℚ) (i : ℕ) (e : ε)
    (h2 : runFF train test pv ps i = .error e) :
    ∀ is₁ : List ℕ, (∀ j ∈ is₁, runFF train test pv ps j = .ok (s j)) → ∀ is₂ : List ℕ,
      runRepeats runFF train test pv ps (is₁ ++ i :: is₂) =
        (is₁.map (fun j => Event.runF train test pv ps j (.ok (s j)))
           ++ [Event.runF train test pv ps i (.error e)], .error e) := by
  intro is₁
  induction is₁ with
  | nil =>
    intro _ is₂
    simp only [List.nil_append, List.map_nil]
    rw [runRepeats, h2]
  | cons j is ih =>
    intro h is₂
    simp only [List.cons_append]
    rw [runRepeats, h j (by simp)]
    simp only [ih (fun j' hj' => h j' (by simp [hj'])) is₂, List.map_cons, List.cons_append]

theorem runRepeats_no_row {ε : Type} (runFF : Data → Data → Option PValue → ParamSet → ℕ → Except ε ℚ)
    (train test : Data) (pv : Option PValue) (ps : ParamSet) :
    ∀ is : List ℕ, ((runRepeats runFF train test pv ps is).1.countP Event.isRow) = 0 := by
  intro is
  induction is with
  | nil => rfl
  | cons i is ih =>
    rw [runRepeats]
    match h : runFF train test pv ps i with
    | .error e => simp [List.countP_cons, Event.isRow]
    | .ok s => simp [List.countP_cons, Event.isRow, ih]

/-- Decomposition of `List.range n` around a position `i < n`. -/
theorem range_eq_append_cons {i n : ℕ} (h : i < n) :
    ∃ is₂ : List ℕ, List.range n = List.range i ++ i :: is₂ := by
  obtain ⟨k, rfl⟩ : ∃ k, n = i + (k + 1) := ⟨n - i - 1, by omega⟩
  refine ⟨(List.range k).map (fun x => i + Nat.succ x), ?_⟩
  rw [List.range_add, List.range_succ_eq_map]
  simp only [List.map_cons, List.map_map, Function.comp_def, Nat.add_zero]

/-! ## `exceptMapM` lemmas -/

theorem exceptMapM_cons_ok {ε α β : Type} (f : α → Except ε β) (a : α) (as : List α)
    {bs : List β} (h : exceptMapM f (a :: as) = .ok bs) :
    ∃ b bs', bs = b :: bs' ∧ f a = .ok b ∧ exceptMapM f as = .ok bs' := by
  rw [exceptMapM] at h
  match ha : f a with
  | .error e => rw [ha] at h; cases h
  | .ok b =>
    rw [ha] at h
    match has : exceptMapM f as with
    | .error e => rw [has] at h; cases h
    | .ok bs' =>
      rw [has] at h
      injection h with h
      exact ⟨b, bs', h.symm, rfl, rfl⟩

theorem runRepeats_isRow_false {ε : Type}
    (runFF : Data → Data → Option PValue → ParamSet → ℕ → Except ε ℚ)
    (train test : Data) (pv : Option PValue) (ps : ParamSet) :
    ∀ is : List ℕ, ∀ ev ∈ (runRepeats runFF train test pv ps is).1, Event.isRow ev = false := by
  intro is
  induction is with
  | nil => intro ev h; cases h
  | cons i is ih =>
    intro ev h
    rw [runRepeats] at h
    revert h
    match h : runFF train test pv ps i with
    | .error e =>
      intro hev
      simp only [List.mem_singleton] at hev
      simp [hev, Event.isRow]
    | .ok s =>
      intro hev
      simp only [List.mem_cons] at hev
      rcases hev with rfl | hev
      · rfl
      · exact ih ev hev

/-! ## Sweep closed forms, row provenance, row counting -/

theorem fixedSweep_closed {ε : Type} (filt : ParamSet → Bool) (nrepeat : ℕ) (header : List Key)
    (runFF : Data → Data → Option PValue → ParamSet → ℕ → Except ε ℚ)
    (tr trP te teP : Data) (score : ParamSet → ℕ → ℚ) (cells : ParamSet → List (Option PValue)) :
    ∀ grid : List ParamSet,
      (∀ p ∈ grid, filt p = false → ∀ i < nrepeat,
        runFF (if truthyOpt (lookupStr "profile" p) then trP else tr)
              (if truthyOpt (lookupStr "profile" p) then teP else te)
              (lookupStr "profile" p) (popKeyRest "profile" p) i = .ok (score p i)) →
      (∀ p ∈ grid, filt p = false →
        dict_to_list header (result2csvrow (popKeyRest "profile" p)
          ((List.range nrepeat).map (score p))) = .ok (cells p)) →
      fixedSweep filt nrepeat header runFF tr trP te teP grid =
        (grid.flatMap (fun p => if filt p then [] else
            (List.range nrepeat).map (fun i =>
              Event.runF (if truthyOpt (lookupStr "profile" p) then trP else tr)
                         (if truthyOpt (lookupStr "profile" p) then teP else te)
                         (lookupStr "profile" p) (popKeyRest "profile" p) i (.ok (score p i)))
              ++ [Event.row (cells p)]), none) := by
  intro grid
  induction grid with
  | nil => intro _ _; rfl
  | cons p rest ih =>
    intro hrun hcells
    have ihr := ih (fun q hq => hrun q (by simp [hq])) (fun q hq => hcells q (by simp [hq]))
    rw [fixedSweep, List.flatMap_cons]
    cases hf : filt p with
    | true =>
      simp [ihr]
    | false =>
      have h1 := runRepeats_ok runFF (if truthyOpt (lookupStr "profile" p) then trP else tr)
          (if truthyOpt (lookupStr "profile" p) then teP else te)
          (lookupStr "profile" p) (popKeyRest "profile" p) (score p) (List.range nrepeat)
          (fun i hi => hrun p (by simp) hf i (List.mem_range.mp hi))
      rw [if_neg (by simp)]
      simp only [h1, hcells p (by simp) hf, ihr]
      simp

theorem xvalSweep_closed {ε : Type} (filt : ParamSet → Bool) (header : List Key)
    (runXv : Data → Option PValue → ParamSet → Except ε (List ℚ)) (d dP : Data)
    (fl : ParamSet → List ℚ) (cells : ParamSet → List (Option PValue)) :
    ∀ grid : List ParamSet,
      (∀ p ∈ grid, filt p = false →
        runXv (if truthyOpt (lookupStr "profile" p) then dP else d)
              (lookupStr "profile" p) (popKeyRest "profile" p) = .ok (fl p)) →
      (∀ p ∈ grid, filt p = false →
        dict_to_list header (result2csvrow (popKeyRest "profile" p) (fl p)) = .ok (cells p)) →
      xvalSweep filt header runXv d dP grid =
        (grid.flatMap (fun p => if filt p then [] else
            [Event.runX (if truthyOpt (lookupStr "profile" p) then dP else d)
                        (lookupStr "profile" p) (popKeyRest "profile" p) (.ok (fl p)),
             Event.row (cells p)]), none) := by
  intro grid
  induction grid with
  | nil => intro _ _; rfl
  | cons p rest ih =>
    intro hrun hcells
    have ihr := ih (fun q hq => hrun q (by simp [hq])) (fun q hq => hcells q (by simp [hq]))
    rw [xvalSweep, List.flatMap_cons]
    cases hf : filt p with
    | true =>
      simp [ihr]
    | false =>
      rw [if_neg (by simp)]
      simp only [hrun p (by simp) hf, hcells p (by simp) hf, ihr]
      simp

theorem fixedSweep_row_mem {ε : Type} (filt : ParamSet → Bool) (nrepeat : ℕ) (header : List Key)
    (runFF : Data → Data → Option PValue → ParamSet → ℕ → Except ε ℚ) (tr trP te teP : Data) :
    ∀ grid : List ParamSet, ∀ cells : List (Option PValue),
      Event.row cells ∈ (fixedSweep filt nrepeat header runFF tr trP te teP grid).1 →
      ∃ p ∈ grid, ∃ scores : List ℚ,
        dict_to_list header (result2csvrow (popKeyRest "profile" p) scores) = .ok cells := by
  intro grid
  induction grid with
  | nil => intro cells h; cases h
  | cons p rest ih =>
    intro cells h
    rw [fixedSweep] at h
    by_cases hf : filt p = true
    · rw [if_pos hf] at h
      obtain ⟨q, hq, sc, hsc⟩ := ih cells h
      exact ⟨q, by simp [hq], sc, hsc⟩
    · rw [if_neg hf] at h
      have hall := runRepeats_isRow_false runFF
          (if truthyOpt (lookupStr "profile" p) then trP else tr)
          (if truthyOpt (lookupStr "profile" p) then teP else te)
          (lookupStr "profile" p) (popKeyRest "profile" p) (List.range nrepeat)
      split at h
      next evs e heq =>
        rw [heq] at hall
        exact absurd (hall _ h) (by simp [Event.isRow])
      next evs scores heq =>
        rw [heq] at hall
        split at h
        next => exact absurd (hall _ h) (by simp [Event.isRow])
        next cells' hd =>
          rcases List.mem_append.mp h with h | h
          · exact absurd (hall _ h) (by simp [Event.isRow])
          · rcases List.mem_cons.mp h with h | h
            · injection h with h
              exact ⟨p, by simp, scores, h ▸ hd⟩
            · obtain ⟨q, hq, sc, hsc⟩ := ih cells h
              exact ⟨q, by simp [hq], sc, hsc⟩

theorem xvalSweep_row_mem {ε : Type} (filt : ParamSet → Bool) (header : List Key)
    (runXv : Data → Option PValue → ParamSet → Except ε (List ℚ)) (d dP : Data) :
    ∀ grid : List ParamSet, ∀ cells : List (Option PValue),
      Event.row cells ∈ (xvalSweep filt header runXv d dP grid).1 →
      ∃ p ∈ grid, ∃ scores : List ℚ,
        dict_to_list header (result2csvrow (popKeyRest "profile" p) scores) = .ok cells := by
  intro grid
  induction grid with
  | nil => intro cells h; cases h
  | cons p rest ih =>
    intro cells h
    rw [xvalSweep] at h
    by_cases hf : filt p = true
    · rw [if_pos hf] at h
      obtain ⟨q, hq, sc, hsc⟩ := ih cells h
      exact ⟨q, by simp [hq], sc, hsc⟩
    · rw [if_neg hf] at h
      split at h
      next e heq =>
        simp only [List.mem_singleton] at h
        cases h
      next fl heq =>
        split at h
        next =>
          simp only [List.mem_singleton] at h
          cases h
        next cells' hd =>
          rcases List.mem_cons.mp h with h | h
          · cases h
          · rcases List.mem_cons.mp h with h | h
            · injection h with h
              exact ⟨p, by simp, fl, h ▸ hd⟩
            · obtain ⟨q, hq, sc, hsc⟩ := ih cells h
              exact ⟨q, by simp [hq], sc, hsc⟩

theorem fixedSweep_rowCount {ε : Type} (filt : ParamSet → Bool) (nrepeat : ℕ) (header : List Key)
    (runFF : Data → Data → Option PValue → ParamSet → ℕ → Except ε ℚ) (tr trP te teP : Data) :
    ∀ grid : List ParamSet,
      (fixedSweep filt nrepeat header runFF tr trP te teP grid).2 = none →
      ((fixedSweep filt nrepeat header runFF tr trP te teP grid).1.countP Event.isRow) =
        (grid.filter (fun p => !filt p)).length := by
  intro grid
  induction grid with
  | nil => intro _; rfl
  | cons p rest ih =>
    intro herr
    rw [fixedSweep] at herr ⊢
    by_cases hf : filt p = true
    · rw [if_pos hf] at herr ⊢
      rw [ih herr, List.filter_cons_of_neg (by simp [hf])]
    · rw [if_neg hf] at herr ⊢
      have hall := runRepeats_isRow_false runFF
          (if truthyOpt (lookupStr "profile" p) then trP else tr)
          (if truthyOpt (lookupStr "profile" p) then teP else te)
          (lookupStr "profile" p) (popKeyRest "profile" p) (List.range nrepeat)
      split at herr
      next evs e heq => simp at herr
      next evs scores heq =>
        rw [heq] at hall
        split at herr
        next => simp at herr
        next cells' hd =>
          simp only [heq, hd]
          have hnr : evs.countP Event.isRow = 0 :=
            List.countP_eq_zero.mpr (fun ev hev => by simp [hall ev hev])
          have herr' : (fixedSweep filt nrepeat header runFF tr trP te teP rest).2 = none := herr
          rw [List.countP_append, hnr, List.filter_cons_of_pos (by simp [hf])]
          simp [List.countP_cons, Event.isRow, ih herr', Nat.add_comm]

theorem xvalSweep_rowCount {ε : Type} (filt : ParamSet → Bool) (header : List Key)
    (runXv : Data → Option PValue → ParamSet → Except ε (List ℚ)) (d dP : Data) :
    ∀ grid : List ParamSet,
      (xvalSweep filt header runXv d dP grid).2 = none →
      ((xvalSweep filt header runXv d dP grid).1.countP Event.isRow) =
        (grid.filter (fun p => !filt p)).length := by
  intro grid
  induction grid with
  | nil => intro _; rfl
  | cons p rest ih =>
    intro herr
    rw [xvalSweep] at herr ⊢
    by_cases hf : filt p = true
    · rw [if_pos hf] at herr ⊢
      rw [ih herr, List.filter_cons_of_neg (by simp [hf])]
    · rw [if_neg hf] at herr ⊢
      split at herr
      next e heq => simp at herr
      next fl heq =>
        split at herr
        next => simp at herr
        next cells' hd =>
          simp only [heq, hd]
          have herr' : (xvalSweep filt header runXv d dP rest).2 = none := herr
          rw [List.filter_cons_of_pos (by simp [hf])]
          simp [List.countP_cons, Event.isRow, ih herr', Nat.add_comm]

/-! ## Claim theorems -/

/-- C10: constructing the sweep controller with the legacy model choice
`'svm'` raises the explicit `ValueError` during construction: the check is
the first statement of `__init__`, so it fires for every `rand`/`repeat`/
`cv` configuration, before any parameter space is generated (no generator
or sampler is consulted) and before the CSV output file and its header are
created. -/
theorem C10_svm_rejected_at_construction (rand : Option ℕ) (samples : ℕ → Outcomes)
    (nrepeat cv : ℕ) :
    GridSearch.init "svm" rand samples nrepeat cv = .error .svm := by
  rw [GridSearch.init, if_pos rfl]

/-- C3: whenever the candidate mapping of a model name is defined (exactly
the names of the three supported families), the grid generator succeeds
and the number of `ParameterSet`s it returns equals the product of the
lengths of the candidate value lists (generic plus family-specific). -/
theorem C3_grid_size_is_product (name : String) (combs : List (String × List PValue))
    (h : paramCombs name = .ok combs) :
    get_param_grid name = .ok (parameterGrid combs) ∧
    (parameterGrid combs).length = (combs.map (fun kv => kv.2.length)).prod := by
  constructor
  · rw [get_param_grid, h]
  · rw [parameterGrid, length_cartProd]
    exact List.Perm.prod_eq
      ((List.mergeSort_perm combs (fun a b => decide (a.1 ≤ b.1))).map (fun kv => kv.2.length))

/-- Witness for C3 at the CrossNet-family name `"cn"`. -/
theorem C3_grid_size_is_product_witness :
    get_param_grid "cn" = .ok (parameterGrid (genericParamCombs ++
      [("dim_lstm", [PValue.int 100, PValue.int 200, PValue.int 300]),
       ("num_reason", [PValue.int 1, PValue.int 2, PValue.int 3]),
       ("dim_dense", [PValue.int 100, PValue.int 200, PValue.int 300])])) ∧
    (parameterGrid (genericParamCombs ++
      [("dim_lstm", [PValue.int 100, PValue.int 200, PValue.int 300]),
       ("num_reason", [PValue.int 1, PValue.int 2, PValue.int 3]),
       ("dim_dense", [PValue.int 100, PValue.int 200, PValue.int 300])])).length =
      ((genericParamCombs ++
        [("dim_lstm", [PValue.int 100, PValue.int 200, PValue.int 300]),
         ("num_reason", [PValue.int 1, PValue.int 2, PValue.int 3]),
         ("dim_dense", [PValue.int 100, PValue.int 200, PValue.int 300])]).map
        (fun kv => kv.2.length)).prod :=
  C3_grid_size_is_product "cn" _ rfl

/-- C6: a model name outside the three recognized families makes
`get_param_grid` and `randsample_params` (for every draw record) raise
`NotImplementedError`, and `__init__` propagates it for every
configuration of the non-`'svm'` name, so no sweep controller is
constructed and the sweep never starts. -/
theorem C6_unsupported_model_errors (name : String)
    (h1 : name ∉ crossnetNames) (h2 : name ∉ memnetNames) (h3 : name ∉ tfNames) :
    get_param_grid name = .error () ∧
    (∀ o : Outcomes, randsample_params o name = .error ()) ∧
    (∀ (rand : Option ℕ) (samples : ℕ → Outcomes) (nrepeat cv : ℕ), name ≠ "svm" →
      GridSearch.init name rand samples nrepeat cv = .error .notImplemented) := by
  have hpc : paramCombs name = .error () := by
    rw [paramCombs, if_neg h1, if_neg h2, if_neg h3]
  have hgrid : get_param_grid name = .error () := by rw [get_param_grid, hpc]
  have hrs : ∀ o : Outcomes, randsample_params o name = .error () := by
    intro o
    rw [randsample_params, if_neg h1, if_neg h2, if_neg h3]
  refine ⟨hgrid, hrs, ?_⟩
  intro rand samples nrepeat cv hsvm
  rw [GridSearch.init, if_neg hsvm]
  cases rand with
  | none => simp [randTruthy, hgrid]
  | some n =>
    by_cases hn : n = 0
    · subst hn
      simp [randTruthy, hgrid]
    · obtain ⟨m, rfl⟩ : ∃ m, n = m + 1 := ⟨n - 1, by omega⟩
      have hmapm : exceptMapM (fun i => randsample_params (samples i) name)
          (List.range (m + 1)) = .error () := by
        rw [List.range_succ_eq_map, exceptMapM, hrs (samples 0)]
      have hr : randTruthy (some (m + 1)) = true := by simp [randTruthy]
      simp [hr, hmapm]

/-- Witness for C6 at the unrecognized model name `"resnet"`. -/
theorem C6_unsupported_model_errors_witness :
    get_param_grid "resnet" = .error () ∧
    (∀ o : Outcomes, randsample_params o "resnet" = .error ()) ∧
    (∀ (rand : Option ℕ) (samples : ℕ → Outcomes) (nrepeat cv : ℕ), "resnet" ≠ "svm" →
      GridSearch.init "resnet" rand samples nrepeat cv = .error .notImplemented) :=
  C6_unsupported_model_errors "resnet" (by decide) (by decide) (by decide)

/-- C8: the `fmacro_avg` cell of a result row holds the arithmetic mean
`sum / n` of the collected scores and the `fmacro_std` cell holds the
(population) standard deviation, i.e. the square root of the mean squared
deviation from that mean; concretely, the average of the scores
[0.5, 0.7, 0.9] is 0.7. -/
theorem C8_avg_std_elementary (l : List ℚ) (ps : ParamSet) (h : l ≠ []) :
    lookupKey Key.fmacro_avg (result2csvrow ps l) = some (.rat (l.sum / l.length)) ∧
    lookupKey Key.fmacro_std (result2csvrow ps l) = some (.sqrtv (np_var l)) ∧
    Real.sqrt ((np_var l : ℚ) : ℝ) =
      Real.sqrt ((((l.map (fun x => (x - l.sum / (l.length : ℚ)) ^ 2)).sum
        / (l.length : ℚ) : ℚ) : ℝ)) ∧
    np_average [1/2, 7/10, 9/10] = 7/10 := by
  have hv : np_var l = (l.map (fun x => (x - l.sum / (l.length : ℚ)) ^ 2)).sum / l.length := by
    simp only [np_var, np_average, List.length_map]
  have hne : ∀ kv ∈ l.enum.map (fun iv => (Key.fmacro (iv.1 + 1), PValue.rat iv.2)),
      kv.1 ≠ Key.fmacro_avg := by
    intro kv hkv
    obtain ⟨iv, _, rfl⟩ := List.mem_map.mp hkv
    simp
  have hne' : ∀ kv ∈ l.enum.map (fun iv => (Key.fmacro (iv.1 + 1), PValue.rat iv.2)),
      kv.1 ≠ Key.fmacro_std := by
    intro kv hkv
    obtain ⟨iv, _, rfl⟩ := List.mem_map.mp hkv
    simp
  refine ⟨?_, ?_, ?_, ?_⟩
  · rw [result2csvrow, List.append_assoc, lookupKey_append_right hne]
    simp [lookupKey, np_average]
  · rw [result2csvrow, List.append_assoc, lookupKey_append_right hne']
    simp [lookupKey]
  · rw [hv]
  · norm_num [np_average]

/-- Witness for C8 at the score list [0.5, 0.7, 0.9]. -/
theorem C8_avg_std_elementary_witness :
    ([1/2, 7/10, 9/10] : List ℚ) ≠ [] ∧ np_average [1/2, 7/10, 9/10] = 7/10 :=
  ⟨by simp, (C8_avg_std_elementary [1/2, 7/10, 9/10] [] (by simp)).2.2.2⟩

/-- Bounds for the learning rate `10 ** u` when the exponent was drawn
from `uniform(-5, -1)`. -/
theorem rpow_ten_bounds {u : ℚ} (h1 : -5 ≤ u) (h2 : u < -1) :
    (1/100000 : ℝ) ≤ (10 : ℝ) ^ (u : ℝ) ∧ (10 : ℝ) ^ (u : ℝ) < 1/10 := by
  have h10 : (1 : ℝ) < 10 := by norm_num
  have hlow : ((10 : ℝ)) ^ ((-5 : ℝ)) = 1/100000 := by
    rw [show ((-5 : ℝ)) = ((-5 : ℤ) : ℝ) by norm_num, Real.rpow_intCast]
    norm_num
  have hhigh : ((10 : ℝ)) ^ ((-1 : ℝ)) = 1/10 := by
    rw [show ((-1 : ℝ)) = ((-1 : ℤ) : ℝ) by norm_num, Real.rpow_intCast]
    norm_num
  constructor
  · rw [← hlow]
    exact (Real.rpow_le_rpow_left_iff h10).mpr (by exact_mod_cast h1)
  · rw [← hhigh]
    exact (Real.rpow_lt_rpow_left_iff h10).mpr (by exact_mod_cast h2)

/-- C9: when every primitive draw respects its numpy contract, every
parameter value produced by the random sampler lies in its declared
range or choice set: `max_seqlen ∈ {20, 40}`, `batch_size ∈ {32, 64, 128,
256}`, `dropout ∈ [0.1, 0.5)`, the learning rate `10 ** u ∈ [1e-5, 1e-1)`,
`max_prflen ∈ {20, 40}`, and analogously for the family-specific
parameters of each of the three model families. -/
theorem C9_sampled_values_in_ranges (o : Outcomes) (name : String) (hv : o.Valid)
    (hname : name ∈ crossnetNames ∨ name ∈ memnetNames ∨ name ∈ tfNames) :
    ∃ ps : ParamSet, randsample_params o name = .ok ps ∧
      (lookupStr "max_seqlen" ps = some (PValue.int 20) ∨
        lookupStr "max_seqlen" ps = some (PValue.int 40)) ∧
      (∃ b : ℤ, lookupStr "batch_size" ps = some (PValue.int b) ∧
        (b = 32 ∨ b = 64 ∨ b = 128 ∨ b = 256)) ∧
      (∃ q : ℚ, lookupStr "dropout" ps = some (PValue.rat q) ∧ 1/10 ≤ q ∧ q < 1/2) ∧
      (∃ u : ℚ, lookupStr "lr" ps = some (PValue.pow10 u) ∧
        (1/100000 : ℝ) ≤ (10 : ℝ) ^ (u : ℝ) ∧ (10 : ℝ) ^ (u : ℝ) < 1/10) ∧
      (lookupStr "max_prflen" ps = some (PValue.int 20) ∨
        lookupStr "max_prflen" ps = some (PValue.int 40)) ∧
      (name ∈ crossnetNames →
        (∃ dl : ℤ, lookupStr "dim_lstm" ps = some (PValue.int dl) ∧
          (dl = 100 ∨ dl = 200 ∨ dl = 300 ∨ dl = 400 ∨ dl = 500)) ∧
        (∃ dd : ℤ, lookupStr "dim_dense" ps = some (PValue.int dd) ∧
          (dd = 100 ∨ dd = 200 ∨ dd = 300 ∨ dd = 400 ∨ dd = 500)) ∧
        lookupStr "num_reason" ps = some (PValue.int 1)) ∧
      (name ∈ memnetNames →
        (∃ dl : ℤ, lookupStr "dim_lstm" ps = some (PValue.int dl) ∧
          (dl = 100 ∨ dl = 200 ∨ dl = 300 ∨ dl = 400 ∨ dl = 500)) ∧
        (∃ nl : ℤ, lookupStr "num_layers" ps = some (PValue.int nl) ∧
          (nl = 1 ∨ nl = 2 ∨ nl = 3 ∨ nl = 4))) ∧
      (name ∈ tfNames →
        (∃ nh : ℤ, lookupStr "num_head" ps = some (PValue.int nh) ∧
          (nh = 2 ∨ nh = 4 ∨ nh = 8)) ∧
        (∃ nl : ℤ, lookupStr "num_layers" ps = some (PValue.int nl) ∧
          (nl = 1 ∨ nl = 2 ∨ nl = 3 ∨ nl = 4))) := by
  obtain ⟨hseq, hprf, ⟨hd1, hd2⟩, ⟨hl1, hl2⟩, ⟨hb1, hb2⟩, ⟨hdl1, hdl2⟩,
    ⟨hdd1, hdd2⟩, ⟨hnl1, hnl2⟩, ⟨hnh1, hnh2⟩⟩ := hv
  have hcm : ∀ x ∈ crossnetNames, x ∉ memnetNames := by decide
  have hct : ∀ x ∈ crossnetNames, x ∉ tfNames := by decide
  have hmc : ∀ x ∈ memnetNames, x ∉ crossnetNames := by decide
  have hmt : ∀ x ∈ memnetNames, x ∉ tfNames := by decide
  have htc : ∀ x ∈ tfNames, x ∉ crossnetNames := by decide
  have htm : ∀ x ∈ tfNames, x ∉ memnetNames := by decide
  have hbexp : o.o_batch_exp = 5 ∨ o.o_batch_exp = 6 ∨ o.o_batch_exp = 7 ∨
      o.o_batch_exp = 8 := by omega
  have hnhexp : o.o_num_head_exp = 1 ∨ o.o_num_head_exp = 2 ∨ o.o_num_head_exp = 3 := by
    omega
  rcases hname with h | h | h
  · refine ⟨randsample_base o ++
      [("dim_lstm", PValue.int (100 * o.o_dim_lstm_f)), ("num_reason", PValue.int 1),
       ("dim_dense", PValue.int (100 * o.o_dim_dense_f))],
      by rw [randsample_params, if_pos h], ?_, ?_, ?_, ?_, ?_, ?_, ?_, ?_⟩
    · rcases hseq with hs | hs
      · exact Or.inl (by rw [← hs]; rfl)
      · exact Or.inr (by rw [← hs]; rfl)
    · exact ⟨2 ^ o.o_batch_exp.toNat, rfl,
        by rcases hbexp with hb | hb | hb | hb <;> rw [hb] <;> decide⟩
    · exact ⟨o.o_dropout, rfl, hd1, hd2⟩
    · exact ⟨o.o_lr_exp, rfl, rpow_ten_bounds hl1 hl2⟩
    · rcases hprf with hs | hs
      · exact Or.inl (by rw [← hs]; rfl)
      · exact Or.inr (by rw [← hs]; rfl)
    · intro _
      exact ⟨⟨100 * o.o_dim_lstm_f, rfl, by omega⟩,
        ⟨100 * o.o_dim_dense_f, rfl, by omega⟩, rfl⟩
    · intro hm
      exact absurd hm (hcm name h)
    · intro ht
      exact absurd ht (hct name h)
  · refine ⟨randsample_base o ++
      [("dim_lstm", PValue.int (100 * o.o_dim_lstm_f)),
       ("num_layers", PValue.int o.o_num_layers),
       ("weight_tying", PValue.bool o.o_weight_tying)],
      by rw [randsample_params, if_neg (hmc name h), if_pos h], ?_, ?_, ?_, ?_, ?_, ?_, ?_, ?_⟩
    · rcases hseq with hs | hs
      · exact Or.inl (by rw [← hs]; rfl)
      · exact Or.inr (by rw [← hs]; rfl)
    · exact ⟨2 ^ o.o_batch_exp.toNat, rfl,
        by rcases hbexp with hb | hb | hb | hb <;> rw [hb] <;> decide⟩
    · exact ⟨o.o_dropout, rfl, hd1, hd2⟩
    · exact ⟨o.o_lr_exp, rfl, rpow_ten_bounds hl1 hl2⟩
    · rcases hprf with hs | hs
      · exact Or.inl (by rw [← hs]; rfl)
      · exact Or.inr (by rw [← hs]; rfl)
    · intro hc
      exact absurd hc (hmc name h)
    · intro _
      exact ⟨⟨100 * o.o_dim_lstm_f, rfl, by omega⟩, ⟨o.o_num_layers, rfl, by omega⟩⟩
    · intro ht
      exact absurd ht (hmt name h)
  · refine ⟨randsample_base o ++
      [("target", PValue.int 1), ("parallel", PValue.int 1),
       ("num_head", PValue.int (2 ^ o.o_num_head_exp.toNat)),
       ("num_layers", PValue.int o.o_num_layers)],
      by rw [randsample_params, if_neg (htc name h), if_neg (htm name h), if_pos h],
      ?_, ?_, ?_, ?_, ?_, ?_, ?_, ?_⟩
    · rcases hseq with hs | hs
      · exact Or.inl (by rw [← hs]; rfl)
      · exact Or.inr (by rw [← hs]; rfl)
    · exact ⟨2 ^ o.o_batch_exp.toNat, rfl,
        by rcases hbexp with hb | hb | hb | hb <;> rw [hb] <;> decide⟩
    · exact ⟨o.o_dropout, rfl, hd1, hd2⟩
    · exact ⟨o.o_lr_exp, rfl, rpow_ten_bounds hl1 hl2⟩
    · rcases hprf with hs | hs
      · exact Or.inl (by rw [← hs]; rfl)
      · exact Or.inr (by rw [← hs]; rfl)
    · intro hc
      exact absurd hc (htc name h)
    · intro hm
      exact absurd hm (htm name h)
    · intro _
      exact ⟨⟨2 ^ o.o_num_head_exp.toNat, rfl,
        by rcases hnhexp with hb | hb | hb <;> rw [hb] <;> decide⟩,
        ⟨o.o_num_layers, rfl, by omega⟩⟩

/-- Witness for C9 with a concrete valid draw record and the model `"cn"`. -/
theorem C9_sampled_values_in_ranges_witness :
    ∃ ps : ParamSet, randsample_params exampleOutcomes "cn" = .ok ps ∧
      (lookupStr "max_seqlen" ps = some (PValue.int 20) ∨
        lookupStr "max_seqlen" ps = some (PValue.int 40)) ∧
      (∃ b : ℤ, lookupStr "batch_size" ps = some (PValue.int b) ∧
        (b = 32 ∨ b = 64 ∨ b = 128 ∨ b = 256)) ∧
      (∃ q : ℚ, lookupStr "dropout" ps = some (PValue.rat q) ∧ 1/10 ≤ q ∧ q < 1/2) ∧
      (∃ u : ℚ, lookupStr "lr" ps = some (PValue.pow10 u) ∧
        (1/100000 : ℝ) ≤ (10 : ℝ) ^ (u : ℝ) ∧ (10 : ℝ) ^ (u : ℝ) < 1/10) ∧
      (lookupStr "max_prflen" ps = some (PValue.int 20) ∨
        lookupStr "max_prflen" ps = some (PValue.int 40)) ∧
      ("cn" ∈ crossnetNames →
        (∃ dl : ℤ, lookupStr "dim_lstm" ps = some (PValue.int dl) ∧
          (dl = 100 ∨ dl = 200 ∨ dl = 300 ∨ dl = 400 ∨ dl = 500)) ∧
        (∃ dd : ℤ, lookupStr "dim_dense" ps = some (PValue.int dd) ∧
          (dd = 100 ∨ dd = 200 ∨ dd = 300 ∨ dd = 400 ∨ dd = 500)) ∧
        lookupStr "num_reason" ps = some (PValue.int 1)) ∧
      ("cn" ∈ memnetNames →
        (∃ dl : ℤ, lookupStr "dim_lstm" ps = some (PValue.int dl) ∧
          (dl = 100 ∨ dl = 200 ∨ dl = 300 ∨ dl = 400 ∨ dl = 500)) ∧
        (∃ nl : ℤ, lookupStr "num_layers" ps = some (PValue.int nl) ∧
          (nl = 1 ∨ nl = 2 ∨ nl = 3 ∨ nl = 4))) ∧
      ("cn" ∈ tfNames →
        (∃ nh : ℤ, lookupStr "num_head" ps = some (PValue.int nh) ∧
          (nh = 2 ∨ nh = 4 ∨ nh = 8)) ∧
        (∃ nl : ℤ, lookupStr "num_layers" ps = some (PValue.int nl) ∧
          (nl = 1 ∨ nl = 2 ∨ nl = 3 ∨ nl = 4))) :=
  C9_sampled_values_in_ranges exampleOutcomes "cn"
    (by simp only [Outcomes.Valid, exampleOutcomes]; norm_num) (Or.inl (by decide))

/-- C1: the CSV header built at construction consists of the parameter
names of the first `ParameterSet`, then one score column per repetition
(`fmacro_1 .. fmacro_repeat`), then `fmacro_avg` and `fmacro_std`; and in
both the fixed and the cross-validation operation a sweep that completes
without error writes exactly one data row per `ParameterSet` not skipped
by the filter predicate. -/
theorem C1_header_and_one_row_per_paramset :
    (∀ (model : String) (rand : Option ℕ) (samples : ℕ → Outcomes) (nrepeat cv : ℕ)
       (st : GridSearchState), GridSearch.init model rand samples nrepeat cv = .ok st →
       st.param_grid ≠ [] ∧
       st.header = (st.param_grid.headI.map Prod.fst).map Key.p
         ++ (List.range nrepeat).map (fun i => Key.fmacro (i + 1))
         ++ [Key.fmacro_avg, Key.fmacro_std]) ∧
    (∀ (ε : Type) (filt : ParamSet → Bool) (st : GridSearchState)
       (runFF : Data → Data → Option PValue → ParamSet → ℕ → Except ε ℚ)
       (trainfp testfp : String),
       (GridSearch.fixedWith filt st runFF trainfp testfp).2 = none →
       ((GridSearch.fixedWith filt st runFF trainfp testfp).1.countP Event.isRow) =
         (st.param_grid.filter (fun p => !filt p)).length) ∧
    (∀ (ε : Type) (filt : ParamSet → Bool) (st : GridSearchState)
       (runXv : Data → Option PValue → ParamSet → Except ε (List ℚ)) (datafp : String),
       (GridSearch.xvalWith filt st runXv datafp).2 = none →
       ((GridSearch.xvalWith filt st runXv datafp).1.countP Event.isRow) =
         (st.param_grid.filter (fun p => !filt p)).length) := by
  refine ⟨?_, ?_, ?_⟩
  · intro model rand samples nrepeat cv st hinit
    rw [GridSearch.init] at hinit
    by_cases hm : model = "svm"
    · rw [if_pos hm] at hinit; cases hinit
    · rw [if_neg hm] at hinit
      rcases hg : (if randTruthy rand then
          exceptMapM (fun i => randsample_params (samples i) model)
            (List.range (rand.getD 0))
        else get_param_grid model) with e | grid
      · rw [hg] at hinit; cases hinit
      · rw [hg] at hinit
        cases grid with
        | nil => cases hinit
        | cons p0 rest =>
          injection hinit with hinit
          subst hinit
          exact ⟨by simp, by simp [mkHeader, List.headI]⟩
  · intro ε filt st runFF trainfp testfp herr
    have h2 : (fixedSweep filt st.nrepeat st.header runFF ⟨trainfp, false⟩ ⟨trainfp, true⟩
        ⟨testfp, false⟩ ⟨testfp, true⟩ st.param_grid).2 = none := herr
    have hc := fixedSweep_rowCount filt st.nrepeat st.header runFF ⟨trainfp, false⟩
      ⟨trainfp, true⟩ ⟨testfp, false⟩ ⟨testfp, true⟩ st.param_grid h2
    show List.countP Event.isRow (Event.load trainfp false :: Event.load trainfp true ::
      Event.load testfp false :: Event.load testfp true ::
      (fixedSweep filt st.nrepeat st.header runFF ⟨trainfp, false⟩ ⟨trainfp, true⟩
        ⟨testfp, false⟩ ⟨testfp, true⟩ st.param_grid).1) = _
    simp [List.countP_cons, Event.isRow, hc]
  · intro ε filt st runXv datafp herr
    have h2 : (xvalSweep filt st.header runXv ⟨datafp, false⟩ ⟨datafp, true⟩
        st.param_grid).2 = none := herr
    have hc := xvalSweep_rowCount filt st.header runXv ⟨datafp, false⟩ ⟨datafp, true⟩
      st.param_grid h2
    show List.countP Event.isRow (Event.load datafp false :: Event.load datafp true ::
      (xvalSweep filt st.header runXv ⟨datafp, false⟩ ⟨datafp, true⟩ st.param_grid).1) = _
    simp [List.countP_cons, Event.isRow, hc]

/-- Witness for C1: a random-search construction (one sample, model
`"cn"`, two repetitions), plus one-element sweeps for the fixed and the
cross-validation operation. -/
theorem C1_header_and_one_row_per_paramset_witness :
    ((⟨"cn", 2, 3,
        [randsample_base exampleOutcomes ++
          [("dim_lstm", PValue.int 100), ("num_reason", PValue.int 1),
           ("dim_dense", PValue.int 100)]],
        mkHeader 2 (randsample_base exampleOutcomes ++
          [("dim_lstm", PValue.int 100), ("num_reason", PValue.int 1),
           ("dim_dense", PValue.int 100)])⟩ : GridSearchState).param_grid ≠ [] ∧
      (⟨"cn", 2, 3,
        [randsample_base exampleOutcomes ++
          [("dim_lstm", PValue.int 100), ("num_reason", PValue.int 1),
           ("dim_dense", PValue.int 100)]],
        mkHeader 2 (randsample_base exampleOutcomes ++
          [("dim_lstm", PValue.int 100), ("num_reason", PValue.int 1),
           ("dim_dense", PValue.int 100)])⟩ : GridSearchState).header =
        (((⟨"cn", 2, 3,
            [randsample_base exampleOutcomes ++
              [("dim_lstm", PValue.int 100), ("num_reason", PValue.int 1),
               ("dim_dense", PValue.int 100)]],
            mkHeader 2 (randsample_base exampleOutcomes ++
              [("dim_lstm", PValue.int 100), ("num_reason", PValue.int 1),
               ("dim_dense", PValue.int 100)])⟩ :
            GridSearchState).param_grid.headI.map Prod.fst).map Key.p
          ++ (List.range 2).map (fun i => Key.fmacro (i + 1))
          ++ [Key.fmacro_avg, Key.fmacro_std])) ∧
    List.countP Event.isRow
      ((@GridSearch.fixedWith Unit (fun _ => false)
        ⟨"m", 1, 3, [[("profile", PValue.bool true)]],
          mkHeader 1 [("profile", PValue.bool true)]⟩
        (fun _ _ _ _ _ => Except.ok (1 : ℚ)) "tr" "te").1) = 1 ∧
    List.countP Event.isRow
      ((@GridSearch.xvalWith Unit (fun _ => false)
        ⟨"m", 1, 3, [[("profile", PValue.bool true)]],
          mkHeader 1 [("profile", PValue.bool true)]⟩
        (fun _ _ _ => Except.ok ([1] : List ℚ)) "d").1) = 1 :=
  ⟨C1_header_and_one_row_per_paramset.1 "cn" (some 1) (fun _ => exampleOutcomes) 2 3 _ rfl,
   C1_header_and_one_row_per_paramset.2.1 Unit (fun _ => false) _
     (fun _ _ _ _ _ => Except.ok (1 : ℚ)) "tr" "te" rfl,
   C1_header_and_one_row_per_paramset.2.2 Unit (fun _ => false) _
     (fun _ _ _ => Except.ok ([1] : List ℚ)) "d" rfl⟩

/-- Every `ParameterSet` produced by the grid generator has a `'profile'`
key (it is one of the generic candidate names of every family). -/
theorem get_param_grid_profile_mem {model : String} {grid : List ParamSet}
    (hg : get_param_grid model = .ok grid) : ∀ p ∈ grid, "profile" ∈ p.map Prod.fst := by
  intro p hp
  rw [get_param_grid] at hg
  rcases hpc : paramCombs model with e | combs
  · rw [hpc] at hg; cases hg
  · rw [hpc] at hg
    injection hg with hg
    subst hg
    rw [parameterGrid] at hp
    rw [keys_of_mem_cartProd hp,
      List.Perm.mem_iff ((List.mergeSort_perm combs (fun a b => decide (a.1 ≤ b.1))).map
        Prod.fst)]
    rw [paramCombs] at hpc
    by_cases h1 : model ∈ crossnetNames
    · rw [if_pos h1] at hpc
      injection hpc with hpc
      rw [← hpc]
      decide
    · rw [if_neg h1] at hpc
      by_cases h2 : model ∈ memnetNames
      · rw [if_pos h2] at hpc
        injection hpc with hpc
        rw [← hpc]
        decide
      · rw [if_neg h2] at hpc
        by_cases h3 : model ∈ tfNames
        · rw [if_pos h3] at hpc
          injection hpc with hpc
          rw [← hpc]
          decide
        · rw [if_neg h3] at hpc
          cases hpc

/-- Every `ParameterSet` produced by the random sampler has a `'profile'`
key. -/
theorem randsample_profile_mem {o : Outcomes} {model : String} {ps : ParamSet}
    (h : randsample_params o model = .ok ps) : "profile" ∈ ps.map Prod.fst := by
  rw [randsample_params] at h
  by_cases h1 : model ∈ crossnetNames
  · rw [if_pos h1] at h
    injection h with h
    subst h
    simp [randsample_base]
  · rw [if_neg h1] at h
    by_cases h2 : model ∈ memnetNames
    · rw [if_pos h2] at h
      injection h with h
      subst h
      simp [randsample_base]
    · rw [if_neg h2] at h
      by_cases h3 : model ∈ tfNames
      · rw [if_pos h3] at h
        injection h with h
        subst h
        simp [randsample_base]
      · rw [if_neg h3] at h
        cases h

/-- After the `'profile'` key has been popped from a duplicate-free
`ParameterSet`, the row mapping binds no value for the `'profile'`
column. -/
theorem lookupKey_profile_none {p : ParamSet} (hnd : (p.map Prod.fst).Nodup)
    (scores : List ℚ) :
    lookupKey (Key.p "profile") (result2csvrow (popKeyRest "profile" p) scores) = none := by
  rw [result2csvrow, List.append_assoc, lookupKey_append_right ?h1,
    lookupKey_append_right ?h2, lookupKey_map_p]
  case h1 =>
    intro kv hkv
    obtain ⟨iv, _, rfl⟩ := List.mem_map.mp hkv
    simp
  case h2 =>
    intro kv hkv
    rcases List.mem_cons.mp hkv with rfl | hkv
    · simp
    · rcases List.mem_cons.mp hkv with rfl | hkv
      · simp
      · cases hkv
  exact lookupStr_popKeyRest hnd

/-- C2: every `ParameterSet` produced by either generator carries a
`'profile'` key, so the header built from the first `ParameterSet`
contains the `'profile'` column; but the key is popped from the set
before the row mapping is built, so in both the fixed and the
cross-validation operation every written row has an empty cell in the
`'profile'` column. -/
theorem C2_profile_column_blank :
    (∀ (model : String) (grid : List ParamSet), get_param_grid model = .ok grid →
       ∀ p ∈ grid, "profile" ∈ p.map Prod.fst) ∧
    (∀ (o : Outcomes) (model : String) (ps : ParamSet),
       randsample_params o model = .ok ps → "profile" ∈ ps.map Prod.fst) ∧
    (∀ (model : String) (rand : Option ℕ) (samples : ℕ → Outcomes) (nrepeat cv : ℕ)
       (st : GridSearchState), GridSearch.init model rand samples nrepeat cv = .ok st →
       Key.p "profile" ∈ st.header) ∧
    (∀ (ε : Type) (filt : ParamSet → Bool) (st : GridSearchState)
       (runFF : Data → Data → Option PValue → ParamSet → ℕ → Except ε ℚ)
       (trainfp testfp : String) (cells : List (Option PValue)) (k : ℕ),
       (∀ p ∈ st.param_grid, (p.map Prod.fst).Nodup) →
       Event.row cells ∈ (GridSearch.fixedWith filt st runFF trainfp testfp).1 →
       st.header[k]? = some (Key.p "profile") → cells[k]? = some none) ∧
    (∀ (ε : Type) (filt : ParamSet → Bool) (st : GridSearchState)
       (runXv : Data → Option PValue → ParamSet → Except ε (List ℚ))
       (datafp : String) (cells : List (Option PValue)) (k : ℕ),
       (∀ p ∈ st.param_grid, (p.map Prod.fst).Nodup) →
       Event.row cells ∈ (GridSearch.xvalWith filt st runXv datafp).1 →
       st.header[k]? = some (Key.p "profile") → cells[k]? = some none) := by
  refine ⟨fun model grid hg => get_param_grid_profile_mem hg,
    fun o model ps h => randsample_profile_mem h, ?_, ?_, ?_⟩
  · intro model rand samples nrepeat cv st hinit
    rw [GridSearch.init] at hinit
    by_cases hm : model = "svm"
    · rw [if_pos hm] at hinit; cases hinit
    · rw [if_neg hm] at hinit
      cases hr : randTruthy rand with
      | false =>
        rw [hr, if_neg (by simp)] at hinit
        rcases hg : get_param_grid model with e | grid
        · rw [hg] at hinit; cases hinit
        · rw [hg] at hinit
          cases grid with
          | nil => cases hinit
          | cons p0 rest =>
            injection hinit with hinit
            subst hinit
            have hmem := get_param_grid_profile_mem hg p0 (by simp)
            show Key.p "profile" ∈ mkHeader nrepeat p0
            rw [mkHeader]
            refine List.mem_append.mpr (Or.inl (List.mem_append.mpr (Or.inl ?_)))
            exact List.mem_map.mpr ⟨"profile", hmem, rfl⟩
      | true =>
        rw [hr, if_pos rfl] at hinit
        rcases hg : exceptMapM (fun i => randsample_params (samples i) model)
            (List.range (rand.getD 0)) with e | grid
        · rw [hg] at hinit; cases hinit
        · rw [hg] at hinit
          cases grid with
          | nil => cases hinit
          | cons p0 rest =>
            injection hinit with hinit
            subst hinit
            cases hn : rand.getD 0 with
            | zero =>
              rw [hn] at hg
              injection hg with hg
              cases hg
            | succ m =>
              rw [hn, List.range_succ_eq_map] at hg
              obtain ⟨b, bs', hbs, hb, _⟩ := exceptMapM_cons_ok _ _ _ hg
              injection hbs with hb0 _
              subst hb0
              have hmem := randsample_profile_mem hb
              show Key.p "profile" ∈ mkHeader nrepeat p0
              rw [mkHeader]
              refine List.mem_append.mpr (Or.inl (List.mem_append.mpr (Or.inl ?_)))
              exact List.mem_map.mpr ⟨"profile", hmem, rfl⟩
  · intro ε filt st runFF trainfp testfp cells k hnd hmem hk
    have hmem' : Event.row cells ∈ (fixedSweep filt st.nrepeat st.header runFF
        ⟨trainfp, false⟩ ⟨trainfp, true⟩ ⟨testfp, false⟩ ⟨testfp, true⟩ st.param_grid).1 := by
      have h0 : Event.row cells ∈ (Event.load trainfp false :: Event.load trainfp true ::
          Event.load testfp false :: Event.load testfp true ::
          (fixedSweep filt st.nrepeat st.header runFF ⟨trainfp, false⟩ ⟨trainfp, true⟩
            ⟨testfp, false⟩ ⟨testfp, true⟩ st.param_grid).1 : List (Event ε)) := hmem
      simpa using h0
    obtain ⟨p, hp, scores, hd⟩ := fixedSweep_row_mem filt st.nrepeat st.header runFF
      ⟨trainfp, false⟩ ⟨trainfp, true⟩ ⟨testfp, false⟩ ⟨testfp, true⟩ st.param_grid cells hmem'
    have hcells := dict_to_list_ok_iff hd
    subst hcells
    rw [List.getElem?_map, hk]
    simp [lookupKey_profile_none (hnd p hp) scores]
  · intro ε filt st runXv datafp cells k hnd hmem hk
    have hmem' : Event.row cells ∈ (xvalSweep filt st.header runXv
        ⟨datafp, false⟩ ⟨datafp, true⟩ st.param_grid).1 := by
      have h0 : Event.row cells ∈ (Event.load datafp false :: Event.load datafp true ::
          (xvalSweep filt st.header runXv ⟨datafp, false⟩ ⟨datafp, true⟩
            st.param_grid).1 : List (Event ε)) := hmem
      simpa using h0
    obtain ⟨p, hp, scores, hd⟩ := xvalSweep_row_mem filt st.header runXv
      ⟨datafp, false⟩ ⟨datafp, true⟩ st.param_grid cells hmem'
    have hcells := dict_to_list_ok_iff hd
    subst hcells
    rw [List.getElem?_map, hk]
    simp [lookupKey_profile_none (hnd p hp) scores]

/-- Witness for C2: generator outputs carry the profile key, the header
of a concrete construction contains the profile column, and concrete
one-row fixed and cross-validation sweeps leave that column empty. -/
theorem C2_profile_column_blank_witness :
    (∀ p ∈ parameterGrid (genericParamCombs ++
        [("dim_lstm", [PValue.int 100, PValue.int 200, PValue.int 300]),
         ("num_reason", [PValue.int 1, PValue.int 2, PValue.int 3]),
         ("dim_dense", [PValue.int 100, PValue.int 200, PValue.int 300])]),
      "profile" ∈ p.map Prod.fst) ∧
    ("profile" ∈ (randsample_base exampleOutcomes ++
        [("dim_lstm", PValue.int 100), ("num_reason", PValue.int 1),
         ("dim_dense", PValue.int 100)]).map Prod.fst) ∧
    (Key.p "profile" ∈ (⟨"cn", 2, 3,
        [randsample_base exampleOutcomes ++
          [("dim_lstm", PValue.int 100), ("num_reason", PValue.int 1),
           ("dim_dense", PValue.int 100)]],
        mkHeader 2 (randsample_base exampleOutcomes ++
          [("dim_lstm", PValue.int 100), ("num_reason", PValue.int 1),
           ("dim_dense", PValue.int 100)])⟩ : GridSearchState).header) ∧
    ([none, some (PValue.rat 1), some (PValue.rat (np_average [1])),
        some (PValue.sqrtv (np_var [1]))] : List (Option PValue))[0]? = some none ∧
    ([none, some (PValue.rat 1), some (PValue.rat (np_average [1])),
        some (PValue.sqrtv (np_var [1]))] : List (Option PValue))[0]? = some none := by
  refine ⟨C2_profile_column_blank.1 "cn" _ rfl, C2_profile_column_blank.2.1 exampleOutcomes
    "cn" _ rfl, C2_profile_column_blank.2.2.1 "cn" (some 1) (fun _ => exampleOutcomes)
    2 3 _ rfl, ?_, ?_⟩
  · refine C2_profile_column_blank.2.2.2.1 Unit (fun _ => false)
      ⟨"m", 1, 3, [[("profile", PValue.bool true)]],
        mkHeader 1 [("profile", PValue.bool true)]⟩
      (fun _ _ _ _ _ => Except.ok (1 : ℚ)) "tr" "te" _ 0 ?_ ?_ rfl
    · intro p hp
      simp only [List.mem_singleton] at hp
      subst hp
      decide
    · exact List.mem_cons_of_mem _ (List.mem_cons_of_mem _ (List.mem_cons_of_mem _
        (List.mem_cons_of_mem _ (List.mem_cons_of_mem _ (List.mem_cons_self _ _)))))
  · refine C2_profile_column_blank.2.2.2.2 Unit (fun _ => false)
      ⟨"m", 1, 3, [[("profile", PValue.bool true)]],
        mkHeader 1 [("profile", PValue.bool true)]⟩
      (fun _ _ _ => Except.ok ([1] : List ℚ)) "d" _ 0 ?_ ?_ rfl
    · intro p hp
      simp only [List.mem_singleton] at hp
      subst hp
      decide
    · exact List.mem_cons_of_mem _ (List.mem_cons_of_mem _ (List.mem_cons_of_mem _
        (List.mem_cons_self _ _)))

/-- C4: if a training or evaluation call raises for some `ParameterSet`,
the exception propagates out of the sweep loop uncaught: the loop records
the successful repetitions and the single failing call (no retry), ends
with a `runErr`, and its output does not depend on the remaining
`ParameterSet`s, which are never processed — in both the fixed and the
cross-validation operation. -/
theorem C4_exception_aborts_sweep :
    (∀ (ε : Type) (filt : ParamSet → Bool) (nrepeat : ℕ) (header : List Key)
       (runFF : Data → Data → Option PValue → ParamSet → ℕ → Except ε ℚ)
       (tr trP te teP : Data) (p : ParamSet) (s : ℕ → ℚ) (i : ℕ) (e : ε),
       filt p = false → i < nrepeat →
       (∀ j < i, runFF (if truthyOpt (lookupStr "profile" p) then trP else tr)
          (if truthyOpt (lookupStr "profile" p) then teP else te)
          (lookupStr "profile" p) (popKeyRest "profile" p) j = .ok (s j)) →
       runFF (if truthyOpt (lookupStr "profile" p) then trP else tr)
          (if truthyOpt (lookupStr "profile" p) then teP else te)
          (lookupStr "profile" p) (popKeyRest "profile" p) i = .error e →
       ∀ rest : List ParamSet,
         fixedSweep filt nrepeat header runFF tr trP te teP (p :: rest) =
           ((List.range i).map (fun j => Event.runF
               (if truthyOpt (lookupStr "profile" p) then trP else tr)
               (if truthyOpt (lookupStr "profile" p) then teP else te)
               (lookupStr "profile" p) (popKeyRest "profile" p) j (.ok (s j)))
             ++ [Event.runF (if truthyOpt (lookupStr "profile" p) then trP else tr)
               (if truthyOpt (lookupStr "profile" p) then teP else te)
               (lookupStr "profile" p) (popKeyRest "profile" p) i (.error e)],
            some (.runErr e))) ∧
    (∀ (ε : Type) (filt : ParamSet → Bool) (header : List Key)
       (runXv : Data → Option PValue → ParamSet → Except ε (List ℚ)) (d dP : Data)
       (p : ParamSet) (e : ε), filt p = false →
       runXv (if truthyOpt (lookupStr "profile" p) then dP else d)
          (lookupStr "profile" p) (popKeyRest "profile" p) = .error e →
       ∀ rest : List ParamSet,
         xvalSweep filt header runXv d dP (p :: rest) =
           ([Event.runX (if truthyOpt (lookupStr "profile" p) then dP else d)
              (lookupStr "profile" p) (popKeyRest "profile" p) (.error e)],
            some (.runErr e))) := by
  constructor
  · intro ε filt nrepeat header runFF tr trP te teP p s i e hf hi hok herr rest
    obtain ⟨is₂, hrange⟩ := range_eq_append_cons hi
    rw [fixedSweep, if_neg (by simp [hf]), hrange,
      runRepeats_fail runFF _ _ _ _ s i e herr (List.range i)
        (fun j hj => hok j (List.mem_range.mp hj)) is₂]
  · intro ε filt header runXv d dP p e hf herr rest
    rw [xvalSweep, if_neg (by simp [hf]), herr]

/-- Witness for C4: a fixed sweep whose second repetition raises, and a
cross-validation sweep whose runner raises, each with one further
`ParameterSet` pending. -/
theorem C4_exception_aborts_sweep_witness :
    fixedSweep (fun _ => false) 2 [] (fun _ _ _ _ j =>
        if j = 0 then Except.ok (1 : ℚ) else Except.error ())
      ⟨"t", false⟩ ⟨"t", true⟩ ⟨"e", false⟩ ⟨"e", true⟩
      [[("profile", PValue.bool false)], []] =
      ([Event.runF ⟨"t", false⟩ ⟨"e", false⟩ (some (PValue.bool false)) [] 0 (.ok 1),
        Event.runF ⟨"t", false⟩ ⟨"e", false⟩ (some (PValue.bool false)) [] 1 (.error ())],
       some (.runErr ())) ∧
    xvalSweep (fun _ => false) [] (fun _ _ _ => Except.error ())
      ⟨"d", false⟩ ⟨"d", true⟩ [[("profile", PValue.bool false)], []] =
      ([Event.runX ⟨"d", false⟩ (some (PValue.bool false)) [] (.error ())],
       some (.runErr ())) :=
  ⟨C4_exception_aborts_sweep.1 Unit (fun _ => false) 2 []
      (fun _ _ _ _ j => if j = 0 then Except.ok (1 : ℚ) else Except.error ())
      ⟨"t", false⟩ ⟨"t", true⟩ ⟨"e", false⟩ ⟨"e", true⟩ [("profile", PValue.bool false)]
      (fun _ => 1) 1 () rfl (by omega)
      (fun j hj => by
        have h0 : j = 0 := by omega
        subst h0
        rfl)
      rfl [[]],
   C4_exception_aborts_sweep.2 Unit (fun _ => false) [] (fun _ _ _ => Except.error ())
      ⟨"d", false⟩ ⟨"d", true⟩ [("profile", PValue.bool false)] () rfl rfl [[]]⟩

/-- C5: in the fixed operation the four data variants (train/test, each
with and without profile features) are loaded once, before the sweep
loop; then for every `ParameterSet` that is not skipped the profile flag
is popped, the training+evaluation call runs exactly `repeat` times on
the data variant selected by the flag, and exactly one result row is
emitted — the whole run is exactly the four loads followed by, per
retained set, the `repeat` calls and its row. -/
theorem C5_fixed_loads_once_repeats_and_rows {ε : Type} (filt : ParamSet → Bool)
    (st : GridSearchState)
    (runFF : Data → Data → Option PValue → ParamSet → ℕ → Except ε ℚ)
    (trainfp testfp : String) (score : ParamSet → ℕ → ℚ)
    (cells : ParamSet → List (Option PValue))
    (hrun : ∀ p ∈ st.param_grid, filt p = false → ∀ i < st.nrepeat,
      runFF (if truthyOpt (lookupStr "profile" p) then ⟨trainfp, true⟩ else ⟨trainfp, false⟩)
            (if truthyOpt (lookupStr "profile" p) then ⟨testfp, true⟩ else ⟨testfp, false⟩)
            (lookupStr "profile" p) (popKeyRest "profile" p) i = .ok (score p i))
    (hcells : ∀ p ∈ st.param_grid, filt p = false →
      dict_to_list st.header (result2csvrow (popKeyRest "profile" p)
        ((List.range st.nrepeat).map (score p))) = .ok (cells p)) :
    GridSearch.fixedWith filt st runFF trainfp testfp =
      (Event.load trainfp false :: Event.load trainfp true ::
       Event.load testfp false :: Event.load testfp true ::
       st.param_grid.flatMap (fun p => if filt p then [] else
         (List.range st.nrepeat).map (fun i => Event.runF
             (if truthyOpt (lookupStr "profile" p) then ⟨trainfp, true⟩ else ⟨trainfp, false⟩)
             (if truthyOpt (lookupStr "profile" p) then ⟨testfp, true⟩ else ⟨testfp, false⟩)
             (lookupStr "profile" p) (popKeyRest "profile" p) i (.ok (score p i)))
           ++ [Event.row (cells p)]), none) := by
  show (Event.load trainfp false :: Event.load trainfp true ::
      Event.load testfp false :: Event.load testfp true ::
      (fixedSweep filt st.nrepeat st.header runFF ⟨trainfp, false⟩ ⟨trainfp, true⟩
        ⟨testfp, false⟩ ⟨testfp, true⟩ st.param_grid).1,
      (fixedSweep filt st.nrepeat st.header runFF ⟨trainfp, false⟩ ⟨trainfp, true⟩
        ⟨testfp, false⟩ ⟨testfp, true⟩ st.param_grid).2) = _
  rw [fixedSweep_closed filt st.nrepeat st.header runFF ⟨trainfp, false⟩ ⟨trainfp, true⟩
    ⟨testfp, false⟩ ⟨testfp, true⟩ score cells st.param_grid hrun hcells]

/-- Witness for C5: a one-set grid with the profile flag set, one
repetition, a constant-score runner. -/
theorem C5_fixed_loads_once_repeats_and_rows_witness :
    @GridSearch.fixedWith Unit (fun _ => false)
      ⟨"m", 1, 3, [[("profile", PValue.bool true)]],
        mkHeader 1 [("profile", PValue.bool true)]⟩
      (fun _ _ _ _ _ => Except.ok (1/2 : ℚ)) "tr" "te" =
      ([Event.load "tr" false, Event.load "tr" true,
        Event.load "te" false, Event.load "te" true,
        Event.runF ⟨"tr", true⟩ ⟨"te", true⟩ (some (PValue.bool true)) [] 0 (.ok (1/2)),
        Event.row [none, some (PValue.rat (1/2)), some (PValue.rat (np_average [1/2])),
          some (PValue.sqrtv (np_var [1/2]))]], none) :=
  C5_fixed_loads_once_repeats_and_rows (fun _ => false)
    ⟨"m", 1, 3, [[("profile", PValue.bool true)]],
      mkHeader 1 [("profile", PValue.bool true)]⟩
    (fun _ _ _ _ _ => Except.ok (1/2 : ℚ)) "tr" "te" (fun _ _ => (1/2 : ℚ))
    (fun _ => [none, some (PValue.rat (1/2)), some (PValue.rat (np_average [1/2])),
      some (PValue.sqrtv (np_var [1/2]))])
    (fun p hp hf i hi => by
      simp only [List.mem_singleton] at hp
      subst hp
      rfl)
    (fun p hp hf => by
      simp only [List.mem_singleton] at hp
      subst hp
      rfl)

/-- C7: in the cross-validation operation the score cells of a row are
keyed by the length of the score list the runner returned, while the
header fixes exactly `repeat` score columns.  If the runner returns more
scores than `repeat`, writing the row raises `ValueError` and the sweep
aborts before any row is written and without touching the remaining
`ParameterSet`s; if it returns at most `repeat` scores, the row is
written and every trailing score column (`fmacro_{m+1}` ..
`fmacro_repeat`) of that row is empty. -/
theorem C7_xval_score_columns_vs_repeat :
    (∀ (ε : Type) (filt : ParamSet → Bool)
       (runXv : Data → Option PValue → ParamSet → Except ε (List ℚ)) (d dP : Data)
       (nrepeat : ℕ) (p0 p : ParamSet) (scores : List ℚ), filt p = false →
       runXv (if truthyOpt (lookupStr "profile" p) then dP else d)
         (lookupStr "profile" p) (popKeyRest "profile" p) = .ok scores →
       nrepeat < scores.length →
       ∀ rest : List ParamSet,
         xvalSweep filt (mkHeader nrepeat p0) runXv d dP (p :: rest) =
           ([Event.runX (if truthyOpt (lookupStr "profile" p) then dP else d)
              (lookupStr "profile" p) (popKeyRest "profile" p) (.ok scores)],
            some .writeErr)) ∧
    (∀ (ε : Type) (filt : ParamSet → Bool)
       (runXv : Data → Option PValue → ParamSet → Except ε (List ℚ)) (d dP : Data)
       (nrepeat : ℕ) (p0 p : ParamSet) (scores : List ℚ), filt p = false →
       runXv (if truthyOpt (lookupStr "profile" p) then dP else d)
         (lookupStr "profile" p) (popKeyRest "profile" p) = .ok scores →
       scores.length ≤ nrepeat →
       (∀ k ∈ (popKeyRest "profile" p).map Prod.fst, k ∈ p0.map Prod.fst) →
       ∃ cells : List (Option PValue),
         dict_to_list (mkHeader nrepeat p0)
           (result2csvrow (popKeyRest "profile" p) scores) = .ok cells ∧
         (∀ rest : List ParamSet,
           xvalSweep filt (mkHeader nrepeat p0) runXv d dP (p :: rest) =
             (Event.runX (if truthyOpt (lookupStr "profile" p) then dP else d)
                (lookupStr "profile" p) (popKeyRest "profile" p) (.ok scores) ::
              Event.row cells ::
              (xvalSweep filt (mkHeader nrepeat p0) runXv d dP rest).1,
              (xvalSweep filt (mkHeader nrepeat p0) runXv d dP rest).2)) ∧
         ∀ j, scores.length ≤ j → j < nrepeat →
           cells[p0.length + j]? = some none) := by
  constructor
  · intro ε filt runXv d dP nrepeat p0 p scores hf hrun hm rest
    have hnotin : Key.fmacro scores.length ∉ mkHeader nrepeat p0 := by
      intro hmem
      rw [mkHeader] at hmem
      rcases List.mem_append.mp hmem with hmem | hmem
      · rcases List.mem_append.mp hmem with hmem | hmem
        · obtain ⟨x, _, hx⟩ := List.mem_map.mp hmem
          cases hx
        · obtain ⟨i, hi, hx⟩ := List.mem_map.mp hmem
          injection hx with hx
          rw [List.mem_range] at hi
          omega
      · rcases List.mem_cons.mp hmem with hx | hmem
        · cases hx
        · rcases List.mem_cons.mp hmem with hx | hmem
          · cases hx
          · cases hmem
    have hkmem : Key.fmacro scores.length ∈
        (result2csvrow (popKeyRest "profile" p) scores).map Prod.fst := by
      rw [result2csvrow_keys]
      refine List.mem_append.mpr (Or.inl (List.mem_append.mpr (Or.inl ?_)))
      refine List.mem_map.mpr ⟨scores.length - 1, List.mem_range.mpr (by omega), ?_⟩
      congr 1
      omega
    have hall : ((result2csvrow (popKeyRest "profile" p) scores).all
        (fun kv => decide (kv.1 ∈ mkHeader nrepeat p0))) = false := by
      rw [Bool.eq_false_iff]
      intro hall
      rw [List.all_eq_true] at hall
      obtain ⟨kv, hkv, hkeq⟩ := List.mem_map.mp hkmem
      have hin := hall kv hkv
      rw [decide_eq_true_eq] at hin
      exact hnotin (hkeq ▸ hin)
    have hdl : dict_to_list (mkHeader nrepeat p0)
        (result2csvrow (popKeyRest "profile" p) scores) = .error () := by
      rw [dict_to_list, if_neg (by simp [hall])]
    rw [xvalSweep, if_neg (by simp [hf])]
    simp only [hrun, hdl]
  · intro ε filt runXv d dP nrepeat p0 p scores hf hrun hm hsub
    have hallt : ((result2csvrow (popKeyRest "profile" p) scores).all
        (fun kv => decide (kv.1 ∈ mkHeader nrepeat p0))) = true := by
      rw [List.all_eq_true]
      intro kv hkv
      rw [decide_eq_true_eq]
      have hk1 : kv.1 ∈ (result2csvrow (popKeyRest "profile" p) scores).map Prod.fst :=
        List.mem_map_of_mem Prod.fst hkv
      rw [result2csvrow_keys] at hk1
      rw [mkHeader]
      rcases List.mem_append.mp hk1 with hk1 | hk1
      · rcases List.mem_append.mp hk1 with hk1 | hk1
        · obtain ⟨i, hi, hkey⟩ := List.mem_map.mp hk1
          rw [List.mem_range] at hi
          refine List.mem_append.mpr (Or.inl (List.mem_append.mpr (Or.inr ?_)))
          rw [← hkey]
          exact List.mem_map.mpr ⟨i, List.mem_range.mpr (by omega), rfl⟩
        · exact List.mem_append.mpr (Or.inr hk1)
      · obtain ⟨kv', hkv', hkey⟩ := List.mem_map.mp hk1
        refine List.mem_append.mpr (Or.inl (List.mem_append.mpr (Or.inl ?_)))
        rw [← hkey]
        exact List.mem_map.mpr ⟨kv'.1, hsub kv'.1 (List.mem_map_of_mem Prod.fst hkv'), rfl⟩
    have hdl : dict_to_list (mkHeader nrepeat p0)
        (result2csvrow (popKeyRest "profile" p) scores) =
        .ok ((mkHeader nrepeat p0).map (fun f =>
          lookupKey f (result2csvrow (popKeyRest "profile" p) scores))) := by
      rw [dict_to_list, if_pos hallt]
    refine ⟨_, hdl, fun rest => ?_, ?_⟩
    · rw [xvalSweep, if_neg (by simp [hf])]
      simp only [hrun, hdl]
    · intro j hmj hjn
      have hidx : (mkHeader nrepeat p0)[p0.length + j]? = some (Key.fmacro (j + 1)) := by
        rw [mkHeader, List.append_assoc, List.getElem?_append]
        rw [if_neg (by simp only [List.length_map]; omega)]
        simp only [List.length_map, Nat.add_sub_cancel_left]
        rw [List.getElem?_append]
        rw [if_pos (by simp only [List.length_map, List.length_range]; omega)]
        rw [List.getElem?_map, List.getElem?_range hjn]
        rfl
      have hnone : lookupKey (Key.fmacro (j + 1))
          (result2csvrow (popKeyRest "profile" p) scores) = none := by
        apply lookupKey_eq_none
        rw [result2csvrow_keys]
        intro hmem
        rcases List.mem_append.mp hmem with hmem | hmem
        · rcases List.mem_append.mp hmem with hmem | hmem
          · obtain ⟨i, hi, hkey⟩ := List.mem_map.mp hmem
            rw [List.mem_range] at hi
            injection hkey with hkey
            omega
          · rcases List.mem_cons.mp hmem with hx | hmem
            · cases hx
            · rcases List.mem_cons.mp hmem with hx | hmem
              · cases hx
              · cases hmem
        · obtain ⟨kv', _, hkey⟩ := List.mem_map.mp hmem
          cases hkey
      rw [List.getElem?_map, hidx]
      simp [hnone]

/-- Witness for C7: a runner returning two scores against one header
column (write aborts), and a runner returning one score against two
header columns (trailing column empty). -/
theorem C7_xval_score_columns_vs_repeat_witness :
    (@xvalSweep Unit (fun _ => false) (mkHeader 1 [("profile", PValue.bool false)])
      (fun _ _ _ => Except.ok ([1/2, 3/4] : List ℚ)) ⟨"d", false⟩ ⟨"d", true⟩
      [[("profile", PValue.bool false)], []] =
      ([Event.runX ⟨"d", false⟩ (some (PValue.bool false)) [] (.ok [1/2, 3/4])],
       some .writeErr)) ∧
    (∃ cells : List (Option PValue),
      dict_to_list (mkHeader 2 [("profile", PValue.bool false)])
        (result2csvrow (popKeyRest "profile" [("profile", PValue.bool false)]) [1/2]) =
        .ok cells ∧
      (∀ rest : List ParamSet,
        @xvalSweep Unit (fun _ => false) (mkHeader 2 [("profile", PValue.bool false)])
          (fun _ _ _ => Except.ok ([1/2] : List ℚ)) ⟨"d", false⟩ ⟨"d", true⟩
          ([("profile", PValue.bool false)] :: rest) =
          (Event.runX (if truthyOpt (lookupStr "profile"
                [("profile", PValue.bool false)]) then ⟨"d", true⟩ else ⟨"d", false⟩)
             (lookupStr "profile" [("profile", PValue.bool false)])
             (popKeyRest "profile" [("profile", PValue.bool false)]) (.ok [1/2]) ::
           Event.row cells ::
           (@xvalSweep Unit (fun _ => false) (mkHeader 2 [("profile", PValue.bool false)])
             (fun _ _ _ => Except.ok ([1/2] : List ℚ)) ⟨"d", false⟩ ⟨"d", true⟩ rest).1,
           (@xvalSweep Unit (fun _ => false) (mkHeader 2 [("profile", PValue.bool false)])
             (fun _ _ _ => Except.ok ([1/2] : List ℚ)) ⟨"d", false⟩ ⟨"d", true⟩ rest).2)) ∧
      ∀ j, ([1/2] : List ℚ).length ≤ j → j < 2 →
        cells[([("profile", PValue.bool false)] : ParamSet).length + j]? = some none) :=
  ⟨C7_xval_score_columns_vs_repeat.1 Unit (fun _ => false)
      (fun _ _ _ => Except.ok ([1/2, 3/4] : List ℚ)) ⟨"d", false⟩ ⟨"d", true⟩ 1
      [("profile", PValue.bool false)] [("profile", PValue.bool false)] [1/2, 3/4]
      rfl rfl (by decide) [[]],
   C7_xval_score_columns_vs_repeat.2 Unit (fun _ => false)
      (fun _ _ _ => Except.ok ([1/2] : List ℚ)) ⟨"d", false⟩ ⟨"d", true⟩ 2
      [("profile", PValue.bool false)] [("profile", PValue.bool false)] [1/2]
      rfl rfl (by decide) (fun k hk => by cases hk)⟩
